import Mathlib

/-!
# WxSend: a verification development of `support.go`

The Go package `WxSend` is a thin client of the WeChat Work HTTP API with four
exported functions: `GetToken`, `SendText`, `SendFile`, `UploadFileFromStream`.

Embedding conventions.

* Go `string` and `[]byte` values are finite byte sequences (`Bytes`); the
  conversion `string(Data)` is the identity on them.
* Everything the program obtains from outside itself is a field of `Env`: the
  clock, the iteration order of a Go map, the random multipart boundary, the
  verdict of `http.NewRequest`, the answer of `Client.Do`, and the wording of
  the error `json.Unmarshal` reports.
* A run of an operation yields the list of HTTP requests handed to `Client.Do`
  together with the Go return values (`Run`).
* A Go `error` is its message; the `stage` component of `GoError` is a ghost
  label recording which kind of `return` statement produced the error, in the
  taxonomy of the specification.
* The parts of the Go standard library the program calls (`strings.Join`,
  `url.URL.String`, `filepath.Split`, `strconv.FormatInt`, `encoding/json`,
  `mime/multipart`, `unicode/utf8`) are modelled on the fragment the program
  exercises; `int` is 64 bits wide.
-/

set_option maxRecDepth 100000

namespace WxSend

/-! ## Byte strings -/

/-- Go `string` and `[]byte` values. -/
abbrev Bytes := List UInt8

/-- The bytes (UTF-8) of a string literal of the source. -/
def lit (s : String) : Bytes := s.toUTF8.data.toList

/-- Go `strings.HasPrefix s p`, arguments in the order `p`, `s`. -/
def startsWith : Bytes → Bytes → Bool
  | [], _ => true
  | _ :: _, [] => false
  | a :: p, b :: s => a == b && startsWith p s

/-- Go `strings.Contains s sub`, arguments in the order `sub`, `s`. -/
def containsSub (sub : Bytes) : Bytes → Bool
  | [] => startsWith sub []
  | b :: s => startsWith sub (b :: s) || containsSub sub s

/-- Go `strings.Join elems sep`. -/
def Join : List Bytes → Bytes → Bytes
  | [], _ => []
  | [a], _ => a
  | a :: b :: rest, sep => a ++ sep ++ Join (b :: rest) sep

/-- Bytewise order on strings, the order of Go's `<` on `string`. -/
def bytesLt : Bytes → Bytes → Bool
  | _, [] => false
  | [], _ :: _ => true
  | a :: s, b :: t => a.toNat < b.toNat || (a == b && bytesLt s t)

/-! ## Go maps with string keys -/

/-- A Go `map[string]V`: an association list with pairwise distinct keys. -/
abbrev GoMap (V : Type) := List (Bytes × V)

/-- The assignment `m[k] = v`. -/
def mapSet {V : Type} : GoMap V → Bytes → V → GoMap V
  | [], k, v => [(k, v)]
  | (k0, v0) :: m, k, v => if k0 = k then (k, v) :: m else (k0, v0) :: mapSet m k v

/-- The lookup `m[k]`. -/
def mapGet {V : Type} : GoMap V → Bytes → Option V
  | [], _ => none
  | (k0, v0) :: m, k => if k0 = k then some v0 else mapGet m k

/-- The order in which `for k, v := range m` visits a map is unspecified in Go:
the run's `seed` selects one of the permutations of the entries. -/
def mapRange {V : Type} (seed : Nat) (m : GoMap V) : GoMap V :=
  m.permutations.getD (seed % m.permutations.length) m

/-- Insertion of an entry into a list sorted by key. -/
def insertByKey {V : Type} (kv : Bytes × V) : GoMap V → GoMap V
  | [] => [kv]
  | kv0 :: m => if bytesLt kv0.1 kv.1 then kv0 :: insertByKey kv m else kv :: kv0 :: m

/-- The entries of a map in increasing key order, the order in which
`json.Marshal` and `multipart.Writer.CreatePart` emit them. -/
def sortByKey {V : Type} : GoMap V → GoMap V
  | [] => []
  | kv :: m => insertByKey kv (sortByKey m)

/-! ## URLs -/

/-- The fields of `url.URL` the program sets. -/
structure URL where
  Scheme : Bytes
  Host : Bytes
  Path : Bytes
  RawQuery : Bytes
deriving DecidableEq, Repr

/-- Go `(*url.URL).String` for a URL with scheme, host and an absolute path that
needs no escaping: the raw query follows a `?` verbatim when it is non-empty. -/
def URL.String (u : URL) : Bytes :=
  u.Scheme ++ lit "://" ++ u.Host ++ u.Path ++
    (if u.RawQuery = [] then [] else lit "?" ++ u.RawQuery)

/-- The closure assigned to `RawQuery` in all four operations: every entry of
`ParamsMap` becomes `k+"="+v`, in map iteration order, joined by `&`. -/
def rawQuery (seed : Nat) (ParamsMap : GoMap Bytes) : Bytes :=
  Join ((mapRange seed ParamsMap).map (fun kv => kv.1 ++ lit "=" ++ kv.2)) (lit "&")

/-! ## Errors, HTTP, environment -/

/-- The kinds of failure of the specification (ghost label of an error). -/
inductive Stage
  | transport
  | httpStatus
  | decode
  | remoteAPI
  | invalidArgument
deriving DecidableEq, Repr

/-- A Go `error` made by `errors.New`: its message, and the ghost label of the
`return` statement that made it. -/
structure GoError where
  stage : Stage
  msg : Bytes
deriving DecidableEq, Repr

/-- An `io.Reader`: the bytes it delivers, and the error that ends the reading
if it does not end with `io.EOF`. -/
structure Stream where
  data : Bytes
  err : Option Bytes
deriving DecidableEq, Repr

/-- The arguments of `http.NewRequest` and the headers set on the request. -/
structure Request where
  Method : Bytes
  URL : Bytes
  Body : Option Bytes
  Header : GoMap Bytes
deriving DecidableEq, Repr

/-- The fields of `http.Response` the program reads. -/
structure Response where
  StatusCode : Int
  Status : Bytes
  Body : Stream
deriving DecidableEq, Repr

/-- What a run obtains from outside the program. -/
structure Env where
  /-- Value of `time.Now().Unix()`. -/
  now : Int
  /-- Selects the iteration order of the run's Go map. -/
  mapSeed : Nat
  /-- Random boundary chosen by `multipart.NewWriter`. -/
  boundary : Bytes
  /-- Error text of `http.NewRequest(method, url, _)`, if it rejects. -/
  newRequestErr : Bytes → Bytes → Option Bytes
  /-- Outcome of `Client.Do`. -/
  Do : Request → Except Bytes Response
  /-- Error text of `json.Unmarshal` on an input it rejects. -/
  unmarshalErr : Bytes → Bytes

/-- A run of an operation: the requests handed to `Client.Do`, in order, and
the Go return values. -/
structure Run (α : Type) where
  sent : List Request
  ret : α
deriving DecidableEq, Repr

/-! ## `unicode/utf8` -/

/-- Go `utf8.RuneError`, U+FFFD. -/
def RuneError : Nat := 0xFFFD

/-- The table `first` of `unicode/utf8` on a non-ASCII lead byte: the length of
the sequence and the range accepted for its second byte. -/
def firstInfo (p0 : Nat) : Option (Nat × Nat × Nat) :=
  if 0xC2 ≤ p0 ∧ p0 ≤ 0xDF then some (2, 0x80, 0xBF)
  else if p0 = 0xE0 then some (3, 0xA0, 0xBF)
  else if p0 = 0xED then some (3, 0x80, 0x9F)
  else if 0xE1 ≤ p0 ∧ p0 ≤ 0xEF then some (3, 0x80, 0xBF)
  else if p0 = 0xF0 then some (4, 0x90, 0xBF)
  else if 0xF1 ≤ p0 ∧ p0 ≤ 0xF3 then some (4, 0x80, 0xBF)
  else if p0 = 0xF4 then some (4, 0x80, 0x8F)
  else none

/-- A continuation byte outside `0x80..0xBF`. -/
def notCont (b : Nat) : Bool := b < 0x80 || 0xBF < b

/-- Go `utf8.DecodeRune`: the first rune of `p` and its width in bytes; an
invalid or truncated encoding gives `(RuneError, 1)`. -/
def decodeRune : Bytes → Nat × Nat
  | [] => (RuneError, 0)
  | p0 :: rest =>
    if p0.toNat < 0x80 then (p0.toNat, 1)
    else
      match firstInfo p0.toNat with
      | none => (RuneError, 1)
      | some (sz, lo, hi) =>
        match rest with
        | [] => (RuneError, 1)
        | b1 :: rest1 =>
          if b1.toNat < lo || hi < b1.toNat then (RuneError, 1)
          else if sz ≤ 2 then ((p0.toNat % 32) * 64 + b1.toNat % 64, 2)
          else
            match rest1 with
            | [] => (RuneError, 1)
            | b2 :: rest2 =>
              if notCont b2.toNat then (RuneError, 1)
              else if sz ≤ 3 then
                ((p0.toNat % 16) * 4096 + (b1.toNat % 64) * 64 + b2.toNat % 64, 3)
              else
                match rest2 with
                | [] => (RuneError, 1)
                | b3 :: _ =>
                  if notCont b3.toNat then (RuneError, 1)
                  else
                    ((p0.toNat % 8) * 262144 + (b1.toNat % 64) * 4096
                      + (b2.toNat % 64) * 64 + b3.toNat % 64, 4)

/-- Go `utf8.AppendRune`: the UTF-8 encoding of a rune; surrogates and values
above U+10FFFF are encoded as U+FFFD. -/
def encodeRune (r : Nat) : Bytes :=
  if r ≤ 0x7F then [UInt8.ofNat r]
  else if r ≤ 0x7FF then [UInt8.ofNat (0xC0 + r / 64), UInt8.ofNat (0x80 + r % 64)]
  else if 0x10FFFF < r ∨ (0xD800 ≤ r ∧ r ≤ 0xDFFF) then [0xEF, 0xBF, 0xBD]
  else if r ≤ 0xFFFF then
    [UInt8.ofNat (0xE0 + r / 4096), UInt8.ofNat (0x80 + r / 64 % 64), UInt8.ofNat (0x80 + r % 64)]
  else
    [UInt8.ofNat (0xF0 + r / 262144), UInt8.ofNat (0x80 + r / 4096 % 64),
      UInt8.ofNat (0x80 + r / 64 % 64), UInt8.ofNat (0x80 + r % 64)]

/-! ## `strconv` -/

/-- Go `strconv.FormatInt(i, 10)`. -/
def FormatInt (i : Int) : Bytes :=
  (if i < 0 then lit "-" else []) ++ (Nat.toDigits 10 i.natAbs).map (fun c => UInt8.ofNat c.toNat)

/-! ## `encoding/json`: `Marshal` -/

/-- The digit `hex[n]` of `encoding/json`, `hex = "0123456789abcdef"`. -/
def hexDigit (n : Nat) : UInt8 :=
  if n < 10 then UInt8.ofNat (48 + n) else UInt8.ofNat (87 + n)

/-- The table `htmlSafeSet` of `encoding/json`: the ASCII bytes that are
written unescaped. -/
def htmlSafe (b : Nat) : Bool :=
  0x20 ≤ b && b < 0x80 && b != 0x22 && b != 0x26 && b != 0x3C && b != 0x3E && b != 0x5C

/-- The escape `encoding/json` writes for an ASCII byte outside `htmlSafeSet`
(backspace and form feed have had their short escapes since Go 1.22). -/
def escapeByte (b : UInt8) : Bytes :=
  if b = 0x5C ∨ b = 0x22 then [0x5C, b]
  else if b = 0x08 then lit "\\b"
  else if b = 0x0C then lit "\\f"
  else if b = 0x0A then lit "\\n"
  else if b = 0x0D then lit "\\r"
  else if b = 0x09 then lit "\\t"
  else lit "\\u00" ++ [hexDigit (b.toNat / 16), hexDigit (b.toNat % 16)]

/-- The loop of `appendString` of `encoding/json` with `escapeHTML` set: the
text written between the quotes for the string `s`. -/
def escapeLoop : Nat → Bytes → Bytes
  | 0, _ => []
  | _, [] => []
  | fuel + 1, b :: s =>
    if b.toNat < 0x80 then
      (if htmlSafe b.toNat then [b] else escapeByte b) ++ escapeLoop fuel s
    else
      let cs := decodeRune (b :: s)
      if cs.1 = RuneError ∧ cs.2 = 1 then lit "\\ufffd" ++ escapeLoop fuel s
      else if cs.1 = 0x2028 ∨ cs.1 = 0x2029 then
        lit "\\u202" ++ [hexDigit (cs.1 % 16)] ++ escapeLoop fuel ((b :: s).drop cs.2)
      else (b :: s).take cs.2 ++ escapeLoop fuel ((b :: s).drop cs.2)

/-- The JSON string literal `encoding/json` writes for a Go string. -/
def encodeString (s : Bytes) : Bytes :=
  lit "\"" ++ escapeLoop s.length s ++ lit "\""

/-- The dynamic types `SendFile` stores in its `map[string]interface{}`. -/
inductive Value
  | str (s : Bytes)
  | int (n : Int)
  | strMap (m : GoMap Bytes)
deriving DecidableEq, Repr

/-- The JSON object `encoding/json` writes for a `map[string]string`: the
entries in increasing key order. -/
def encodeStrMap (m : GoMap Bytes) : Bytes :=
  lit "\x7b" ++ Join ((sortByKey m).map
    (fun kv => encodeString kv.1 ++ lit ":" ++ encodeString kv.2)) (lit ",") ++ lit "\x7d"

/-- The JSON text `encoding/json` writes for a value stored in the map. -/
def encodeValue : Value → Bytes
  | .str s => encodeString s
  | .int n => FormatInt n
  | .strMap m => encodeStrMap m

/-- Go `json.Marshal` on a `map[string]interface{}` holding strings, ints and
`map[string]string`s; it reports no error on such a value. -/
def MarshalMap (m : GoMap Value) : Except Bytes Bytes :=
  .ok (lit "\x7b" ++ Join ((sortByKey m).map
    (fun kv => encodeString kv.1 ++ lit ":" ++ encodeValue kv.2)) (lit ",") ++ lit "\x7d")

/-! ## `encoding/json`: `Unmarshal` -/

/-- The white space of JSON: space, tab, carriage return, line feed. -/
def isSpace (b : UInt8) : Bool := b == 0x20 || b == 0x09 || b == 0x0D || b == 0x0A

/-- Removal of leading white space. -/
def skipSpace (s : Bytes) : Bytes := s.dropWhile isSpace

/-- A decimal digit. -/
def isDigit (b : UInt8) : Bool := 0x30 ≤ b.toNat && b.toNat ≤ 0x39

/-- The value of a hexadecimal digit. -/
def hexVal (b : UInt8) : Option Nat :=
  if 0x30 ≤ b.toNat ∧ b.toNat ≤ 0x39 then some (b.toNat - 0x30)
  else if 0x61 ≤ b.toNat ∧ b.toNat ≤ 0x66 then some (b.toNat - 0x61 + 10)
  else if 0x41 ≤ b.toNat ∧ b.toNat ≤ 0x46 then some (b.toNat - 0x41 + 10)
  else none

/-- Four hexadecimal digits at the head of the input: their value and the rest. -/
def hex4 : Bytes → Option (Nat × Bytes)
  | a :: b :: c :: d :: rest =>
    match hexVal a, hexVal b, hexVal c, hexVal d with
    | some x, some y, some z, some w => some (x * 4096 + y * 256 + z * 16 + w, rest)
    | _, _, _, _ => none
  | _ => none

/-- The function `getu4` of `encoding/json`: the value of an escape of the form
backslash, `u`, four hexadecimal digits at the head of the input. -/
def getu4 : Bytes → Option (Nat × Bytes)
  | 0x5C :: 0x75 :: rest => hex4 rest
  | _ => none

/-- The byte denoted by a one-letter escape. -/
def simpleEscape (e : UInt8) : Option UInt8 :=
  if e = 0x22 ∨ e = 0x5C ∨ e = 0x2F then some e
  else if e = 0x62 then some 0x08
  else if e = 0x66 then some 0x0C
  else if e = 0x6E then some 0x0A
  else if e = 0x72 then some 0x0D
  else if e = 0x74 then some 0x09
  else none

/-- A JSON string whose opening quote has been read: the Go string it denotes
(the scanner's check and `unquote` of `encoding/json` in one pass) and the input
after the closing quote. Control characters and unknown escapes are rejected;
invalid UTF-8 and unpaired surrogate escapes become U+FFFD. -/
def parseString : Nat → Bytes → Option (Bytes × Bytes)
  | 0, _ => none
  | _, [] => none
  | fuel + 1, b :: s =>
    if b = 0x22 then some ([], s)
    else if b.toNat < 0x20 then none
    else if b = 0x5C then
      match s with
      | [] => none
      | e :: s1 =>
        if e = 0x75 then
          match hex4 s1 with
          | none => none
          | some (rr, s2) =>
            if 0xD800 ≤ rr ∧ rr < 0xE000 then
              match getu4 s2 with
              | some (rr1, s3) =>
                if rr < 0xDC00 ∧ 0xDC00 ≤ rr1 ∧ rr1 < 0xE000 then
                  (parseString fuel s3).map (fun r =>
                    (encodeRune ((rr - 0xD800) * 1024 + (rr1 - 0xDC00) + 0x10000) ++ r.1, r.2))
                else (parseString fuel s2).map (fun r => (encodeRune RuneError ++ r.1, r.2))
              | none => (parseString fuel s2).map (fun r => (encodeRune RuneError ++ r.1, r.2))
            else (parseString fuel s2).map (fun r => (encodeRune rr ++ r.1, r.2))
        else
          match simpleEscape e with
          | none => none
          | some c => (parseString fuel s1).map (fun r => (c :: r.1, r.2))
    else if b.toNat < 0x80 then (parseString fuel s).map (fun r => (b :: r.1, r.2))
    else
      let cs := decodeRune (b :: s)
      (parseString fuel ((b :: s).drop cs.2)).map (fun r => (encodeRune cs.1 ++ r.1, r.2))

/-- A non-empty run of digits at the head of the input, and the rest. -/
def digits1 (s : Bytes) : Option (Bytes × Bytes) :=
  if s.takeWhile isDigit = [] then none else some (s.takeWhile isDigit, s.dropWhile isDigit)

/-- A JSON number at the head of the input: its literal and the rest. -/
def parseNumber (inp : Bytes) : Option (Bytes × Bytes) :=
  let sign : Bytes := if inp.head? = some 0x2D then [0x2D] else []
  let s0 := if inp.head? = some 0x2D then inp.tail else inp
  let intPart : Option (Bytes × Bytes) :=
    match s0 with
    | [] => none
    | d :: s1 => if d = 0x30 then some ([d], s1) else digits1 (d :: s1)
  match intPart with
  | none => none
  | some (ip, s1) =>
    let frac : Option (Bytes × Bytes) :=
      match s1 with
      | 0x2E :: s2 => (digits1 s2).map (fun r => (0x2E :: r.1, r.2))
      | _ => some ([], s1)
    match frac with
    | none => none
    | some (fp, s2) =>
      let exp : Option (Bytes × Bytes) :=
        match s2 with
        | e :: s3 =>
          if e = 0x65 ∨ e = 0x45 then
            match s3 with
            | g :: s4 =>
              if g = 0x2B ∨ g = 0x2D then (digits1 s4).map (fun r => (e :: g :: r.1, r.2))
              else (digits1 s3).map (fun r => (e :: r.1, r.2))
            | [] => none
          else some ([], s2)
        | [] => some ([], s2)
      match exp with
      | none => none
      | some (ep, s3) => some (sign ++ ip ++ fp ++ ep, s3)

/-- What the decoder needs to know of a JSON value that has been read: its
kind, and the literal of a number or the Go string of a string. -/
inductive Item
  | null
  | bool
  | number (literal : Bytes)
  | string (s : Bytes)
  | array
  | object
deriving DecidableEq, Repr

/-- The limit `maxNestingDepth` of `encoding/json`. -/
def maxNestingDepth : Nat := 10000

/-- The four readers of the JSON grammar, which call one another: a value, the
elements of a non-empty array after its opening bracket, the members of an
object after its opening brace, the members of a non-empty object from a key
on. -/
inductive Reader
  | value
  | elems
  | object
  | members
deriving DecidableEq, Repr

/-- What a reader returns: the members read (keys with the items of their
values, in input order; empty for an array), the item read (for `value`), and
the rest of the input. -/
structure Read where
  members : List (Bytes × Item)
  item : Item
  rest : Bytes
deriving DecidableEq, Repr

/-- The recursive-descent reading of JSON at nesting depth `depth`; the input
of `value`, `elems` and `members` starts at a non-space byte, containers are
read up to and including their closing bracket or brace. -/
def read : Nat → Reader → Nat → Bytes → Option Read
  | 0, _, _, _ => none
  | fuel + 1, Reader.value, depth, inp =>
    match inp with
    | [] => none
    | b :: s =>
      if b = 0x7B then
        if maxNestingDepth ≤ depth then none
        else (read fuel Reader.object (depth + 1) (skipSpace s)).map
          (fun r => ⟨r.members, Item.object, r.rest⟩)
      else if b = 0x5B then
        if maxNestingDepth ≤ depth then none
        else if (skipSpace s).head? = some 0x5D then some ⟨[], Item.array, (skipSpace s).tail⟩
        else (read fuel Reader.elems (depth + 1) (skipSpace s)).map
          (fun r => ⟨[], Item.array, r.rest⟩)
      else if b = 0x22 then
        (parseString (s.length + 1) s).map (fun r => ⟨[], Item.string r.1, r.2⟩)
      else if startsWith (lit "true") (b :: s) then some ⟨[], Item.bool, (b :: s).drop 4⟩
      else if startsWith (lit "false") (b :: s) then some ⟨[], Item.bool, (b :: s).drop 5⟩
      else if startsWith (lit "null") (b :: s) then some ⟨[], Item.null, (b :: s).drop 4⟩
      else (parseNumber (b :: s)).map (fun r => ⟨[], Item.number r.1, r.2⟩)
  | fuel + 1, Reader.elems, depth, s =>
    match read fuel Reader.value depth s with
    | none => none
    | some r =>
      match skipSpace r.rest with
      | c :: s2 =>
        if c = 0x2C then read fuel Reader.elems depth (skipSpace s2)
        else if c = 0x5D then some ⟨[], Item.array, s2⟩
        else none
      | [] => none
  | fuel + 1, Reader.object, depth, s =>
    if s.head? = some 0x7D then some ⟨[], Item.object, s.tail⟩
    else read fuel Reader.members depth s
  | fuel + 1, Reader.members, depth, s =>
    match s with
    | [] => none
    | q :: s0 =>
      if q = 0x22 then
        match parseString (s0.length + 1) s0 with
        | none => none
        | some (key, s1) =>
          match skipSpace s1 with
          | [] => none
          | colon :: s2 =>
            if colon = 0x3A then
              match read fuel Reader.value depth (skipSpace s2) with
              | none => none
              | some v =>
                match skipSpace v.rest with
                | c :: s4 =>
                  if c = 0x2C then
                    (read fuel Reader.members depth (skipSpace s4)).map
                      (fun r => ⟨(key, v.item) :: r.members, Item.object, r.rest⟩)
                  else if c = 0x7D then some ⟨[(key, v.item)], Item.object, s4⟩
                  else none
                | [] => none
            else none
      else none

/-- A JSON text as `json.Unmarshal` sees it when the target is a struct. -/
inductive Top
  | null
  | object (members : List (Bytes × Item))
  | other
deriving DecidableEq, Repr

/-- The check `checkValid` of `encoding/json` together with the reading of the
top-level value: `none` for an input that is not one JSON value surrounded by
optional white space. -/
def parseTop (data : Bytes) : Option Top :=
  match read (2 * data.length + 2) Reader.value 0 (skipSpace data) with
  | none => none
  | some r =>
    if skipSpace r.rest = [] then
      some (if r.item = Item.object then Top.object r.members
        else if r.item = Item.null then Top.null else Top.other)
    else none

/-- The Go types of the fields of the response structs. -/
inductive FieldType
  | int64
  | string
deriving DecidableEq, Repr

/-- The function `foldName` of `encoding/json` up to the matches it yields
against ASCII names: ASCII letters are upper-cased, U+017F and U+212A (the only
other runes whose fold set meets ASCII) become `S` and `K`, any other rune is
re-encoded as it is. -/
def foldName : Nat → Bytes → Bytes
  | 0, _ => []
  | _, [] => []
  | fuel + 1, c :: s =>
    if c.toNat < 0x80 then
      (if 0x61 ≤ c.toNat ∧ c.toNat ≤ 0x7A then UInt8.ofNat (c.toNat - 0x20) else c)
        :: foldName fuel s
    else
      let cs := decodeRune (c :: s)
      (if cs.1 = 0x17F then [0x53] else if cs.1 = 0x212A then [0x4B] else encodeRune cs.1)
        ++ foldName fuel ((c :: s).drop cs.2)

/-- The field a JSON key selects: the field of that exact name, otherwise the
first field whose name is equal to the key under case folding. -/
def findField (shape : List (Bytes × FieldType)) (key : Bytes) : Option (Bytes × FieldType) :=
  match shape.find? (fun f => f.1 = key) with
  | some f => some f
  | none => shape.find? (fun f => foldName f.1.length f.1 = foldName key.length key)

/-- Go `strconv.ParseInt(s, 10, 64)` on a JSON number literal: an optional
minus sign and digits only, with a value in the range of `int64`. -/
def parseInt64 (s : Bytes) : Option Int :=
  let neg := s.head? = some 0x2D
  let ds := if neg then s.tail else s
  if ds = [] ∨ ¬ ds.all isDigit then none
  else
    let n : Nat := ds.foldl (fun acc d => acc * 10 + (d.toNat - 0x30)) 0
    if neg then (if n ≤ 2 ^ 63 then some (-(n : Int)) else none)
    else (if n < 2 ^ 63 then some (n : Int) else none)

/-- The decoding of the members of a JSON object into a struct whose fields
are listed in `shape`; `fields` holds the fields assigned so far. A member whose
key selects no field is skipped, `null` leaves a field as it is, a later member
overwrites an earlier one, and a value of the wrong JSON type makes
`json.Unmarshal` report an error (`none`). -/
def decodeMembers (shape : List (Bytes × FieldType)) :
    List (Bytes × Item) → GoMap Value → Option (GoMap Value)
  | [], fields => some fields
  | (key, item) :: rest, fields =>
    match findField shape key with
    | none => decodeMembers shape rest fields
    | some (name, ty) =>
      match item, ty with
      | Item.null, _ => decodeMembers shape rest fields
      | Item.string v, FieldType.string => decodeMembers shape rest (mapSet fields name (Value.str v))
      | Item.number l, FieldType.int64 =>
        match parseInt64 l with
        | none => none
        | some n => decodeMembers shape rest (mapSet fields name (Value.int n))
      | _, _ => none

/-- Go `json.Unmarshal(data, &v)` for a zero-valued struct `v` with the fields
of `shape`: the fields it assigns, or `none` when it reports an error. -/
def Unmarshal (shape : List (Bytes × FieldType)) (data : Bytes) : Option (GoMap Value) :=
  match parseTop data with
  | none => none
  | some Top.null => some []
  | some (Top.object members) => decodeMembers shape members []
  | some Top.other => none

/-- The value of a `string` field after decoding (zero value: the empty string). -/
def fieldStr (fields : GoMap Value) (name : Bytes) : Bytes :=
  match mapGet fields name with
  | some (Value.str v) => v
  | _ => []

/-- The value of an integer field after decoding (zero value: 0). -/
def fieldInt (fields : GoMap Value) (name : Bytes) : Int :=
  match mapGet fields name with
  | some (Value.int n) => n
  | _ => 0

/-! ## `path/filepath` and `mime/multipart` -/

/-- Go `filepath.Split` on a system whose path separator is the slash: the
path is cut after its last separator. -/
def filepathSplit (path : Bytes) : Bytes × Bytes :=
  (path.rdropWhile (fun b => b != 0x2F), path.rtakeWhile (fun b => b != 0x2F))

/-- The bytes `multipart.Writer.CreatePart` writes for the first part: the
boundary line, the header lines in increasing key order, an empty line. -/
def createPart (boundary : Bytes) (h : GoMap Bytes) : Except Bytes Bytes :=
  .ok (lit "--" ++ boundary ++ lit "\r\n"
    ++ ((sortByKey h).map (fun kv => kv.1 ++ lit ": " ++ kv.2 ++ lit "\r\n")).flatten
    ++ lit "\r\n")

/-- The bytes `multipart.Writer.Close` writes. -/
def closeWriter (boundary : Bytes) : Bytes :=
  lit "\r\n--" ++ boundary ++ lit "--\r\n"

/-- Go `multipart.Writer.FormDataContentType` for a boundary that needs no
quoting, as the random boundary of `multipart.NewWriter` is. -/
def FormDataContentType (boundary : Bytes) : Bytes :=
  lit "multipart/form-data; boundary=" ++ boundary

/-! ## The package `WxSend` -/

/-- The Go type `FileType`, a string type. -/
abbrev FileType := Bytes

/-- The constant `Image`. -/
def Image : FileType := lit "image"

/-- The constant `Voice`. -/
def Voice : FileType := lit "voice"

/-- The constant `Video`. -/
def Video : FileType := lit "video"

/-- The constant `File`. -/
def File : FileType := lit "file"

/-- The anonymous struct type of the field `VideoSettings`. -/
structure VideoSettingsStruct where
  Title : Bytes
  Description : Bytes
deriving DecidableEq, Repr

/-- The Go type `TypeStruct`; its field `Type` is written `Type_`. -/
structure TypeStruct where
  Type_ : FileType
  MediaID : Bytes
  VideoSettings : VideoSettingsStruct
deriving DecidableEq, Repr

/-- Go `errors.New(msg)`, with the ghost label of the failure kind. -/
def errorsNew (stage : Stage) (msg : Bytes) : GoError := ⟨stage, msg⟩

/-- The URL of an API endpoint: fixed scheme and host, the given path, and
the query built from `ParamsMap`. -/
def apiURL (env : Env) (Path : Bytes) (ParamsMap : GoMap Bytes) : URL :=
  { Scheme := lit "https"
    Host := lit "qyapi.weixin.qq.com"
    Path := Path
    RawQuery := rawQuery env.mapSeed ParamsMap }

namespace GetToken

/-- The local type `ResponseBodyStruct` of `GetToken`. -/
structure ResponseBodyStruct where
  ErrCode : Int
  ErrMsg : Bytes
  AccessToken : Bytes
  ExpiredTime : Int
deriving DecidableEq, Repr

/-- The JSON names and Go types of the fields of `ResponseBodyStruct`. -/
def shape : List (Bytes × FieldType) :=
  [(lit "errcode", FieldType.int64), (lit "errmsg", FieldType.string),
   (lit "access_token", FieldType.string), (lit "expires_in", FieldType.int64)]

/-- The call `json.Unmarshal(DataRaw, &ResponseJson)`: the struct on success. -/
def unmarshal (DataRaw : Bytes) : Option ResponseBodyStruct :=
  (Unmarshal shape DataRaw).map (fun f =>
    { ErrCode := fieldInt f (lit "errcode")
      ErrMsg := fieldStr f (lit "errmsg")
      AccessToken := fieldStr f (lit "access_token")
      ExpiredTime := fieldInt f (lit "expires_in") })

/-- The value of the variable `URL` of `GetToken`. -/
def URL (env : Env) (CorpID CorpSecret : Bytes) : URL :=
  apiURL env (lit "/cgi-bin/gettoken")
    (mapSet (mapSet [] (lit "corpid") CorpID) (lit "corpsecret") CorpSecret)

end GetToken

/-- The function `GetToken`. -/
def GetToken (env : Env) (CorpID CorpSecret : Bytes) : Run (Bytes × Int × Option GoError) :=
  let URL := GetToken.URL env CorpID CorpSecret
  match env.newRequestErr (lit "GET") URL.String with
  | some err => ⟨[], [], 0, some (errorsNew .transport (lit "create request fail: " ++ err))⟩
  | none =>
    let Request : Request := { Method := lit "GET", URL := URL.String, Body := none, Header := [] }
    match env.Do Request with
    | .error err =>
      ⟨[Request], [], 0, some (errorsNew .transport (lit "get response fail: " ++ err))⟩
    | .ok Response =>
      if Response.StatusCode ≠ 200 then
        ⟨[Request], [], 0, some (errorsNew .httpStatus
          (lit "fail to get body, status code: " ++ Response.Status))⟩
      else
        match Response.Body.err with
        | some err =>
          ⟨[Request], [], 0, some (errorsNew .transport (lit "fail to get body: " ++ err))⟩
        | none =>
          let DataRaw := Response.Body.data
          match GetToken.unmarshal DataRaw with
          | none =>
            ⟨[Request], [], 0, some (errorsNew .decode
              (lit "json parse fail: " ++ env.unmarshalErr DataRaw))⟩
          | some ResponseJson =>
            if ResponseJson.ErrCode ≠ 0 then
              ⟨[Request], [], 0, some (errorsNew .remoteAPI ResponseJson.ErrMsg)⟩
            else ⟨[Request], ResponseJson.AccessToken, ResponseJson.ExpiredTime, none⟩

namespace SendText

/-- The anonymous struct type of the field `Text`. -/
structure TextStruct where
  Content : Bytes
deriving DecidableEq, Repr

/-- The local type `RequestBodyStruct` of `SendText`. -/
structure RequestBodyStruct where
  ToUser : Bytes
  MsgType : Bytes
  AppID : Bytes
  Text : TextStruct
  EnableDuplicateCheck : Int
  DuplicateCheckInterval : Int
deriving DecidableEq, Repr

/-- Go `json.Marshal` on a `RequestBodyStruct`: the fields under their JSON
names in declaration order; it reports no error on such a value. -/
def Marshal (v : RequestBodyStruct) : Except Bytes Bytes :=
  .ok (lit "\x7b\"touser\":" ++ encodeString v.ToUser
    ++ lit ",\"msgtype\":" ++ encodeString v.MsgType
    ++ lit ",\"agentid\":" ++ encodeString v.AppID
    ++ lit ",\"text\":\x7b\"content\":" ++ encodeString v.Text.Content ++ lit "\x7d"
    ++ lit ",\"enable_duplicate_check\":" ++ FormatInt v.EnableDuplicateCheck
    ++ lit ",\"duplicate_check_interval\":" ++ FormatInt v.DuplicateCheckInterval
    ++ lit "\x7d")

/-- The value of the variable `RequestBody` of `SendText`. -/
def RequestBody (AppID Username Data : Bytes) : RequestBodyStruct :=
  { ToUser := Username
    MsgType := lit "text"
    AppID := AppID
    Text := { Content := Data }
    EnableDuplicateCheck := 0
    DuplicateCheckInterval := 1800 }

/-- The local type `ResponseBodyStruct` of `SendText`. -/
structure ResponseBodyStruct where
  ErrCode : Int
  ErrMsg : Bytes
  Type_ : Bytes
  MediaID : Bytes
  CreatedTime : Bytes
deriving DecidableEq, Repr

/-- The JSON names and Go types of the fields of `ResponseBodyStruct`. -/
def shape : List (Bytes × FieldType) :=
  [(lit "errcode", FieldType.int64), (lit "errmsg", FieldType.string),
   (lit "type", FieldType.string), (lit "media_id", FieldType.string),
   (lit "created_at", FieldType.string)]

/-- The call `json.Unmarshal(DataRaw, &ResponseJson)`: the struct on success. -/
def unmarshal (DataRaw : Bytes) : Option ResponseBodyStruct :=
  (Unmarshal shape DataRaw).map (fun f =>
    { ErrCode := fieldInt f (lit "errcode")
      ErrMsg := fieldStr f (lit "errmsg")
      Type_ := fieldStr f (lit "type")
      MediaID := fieldStr f (lit "media_id")
      CreatedTime := fieldStr f (lit "created_at") })

/-- The value of the variable `URL` of `SendText`. -/
def URL (env : Env) (AccessToken : Bytes) : URL :=
  apiURL env (lit "/cgi-bin/message/send") (mapSet [] (lit "access_token") AccessToken)

end SendText

/-- The function `SendText`. -/
def SendText (env : Env) (AccessToken AppID Username Data : Bytes) : Run (Option GoError) :=
  let URL := SendText.URL env AccessToken
  let RequestBody := SendText.RequestBody AppID Username Data
  match SendText.Marshal RequestBody with
  | .error err => ⟨[], some (errorsNew .decode (lit "json parse fail: " ++ err))⟩
  | .ok RequestBodyBytes =>
    match env.newRequestErr (lit "POST") URL.String with
    | some err => ⟨[], some (errorsNew .transport (lit "create request fail: " ++ err))⟩
    | none =>
      let Request : Request :=
        { Method := lit "POST", URL := URL.String, Body := some RequestBodyBytes, Header := [] }
      match env.Do Request with
      | .error err => ⟨[Request], some (errorsNew .transport (lit "get response fail: " ++ err))⟩
      | .ok Response =>
        if Response.StatusCode ≠ 200 then
          ⟨[Request], some (errorsNew .httpStatus
            (lit "fail to get body, status code: " ++ Response.Status))⟩
        else
          match Response.Body.err with
          | some err =>
            ⟨[Request], some (errorsNew .transport (lit "fail to get body: " ++ err))⟩
          | none =>
            let DataRaw := Response.Body.data
            match SendText.unmarshal DataRaw with
            | none =>
              ⟨[Request], some (errorsNew .decode
                (lit "json parse fail: " ++ env.unmarshalErr DataRaw))⟩
            | some ResponseJson =>
              if ResponseJson.ErrCode ≠ 0 then
                ⟨[Request], some (errorsNew .remoteAPI ResponseJson.ErrMsg)⟩
              else ⟨[Request], none⟩

namespace SendFile

/-- The value of the map literal with the single key `media_id`. -/
def mediaOnly (ts : TypeStruct) : GoMap Bytes :=
  mapSet [] (lit "media_id") ts.MediaID

/-- The `switch TypeSettings.Type` of `SendFile` applied to the map that already
holds `touser` and `agentid`: the map after the matching case, or `none` in the
`default` case. For `Video` an empty title is first replaced by `"Video_"`
followed by the decimal Unix time. -/
def switchType (env : Env) (ts : TypeStruct) (m : GoMap Value) : Option (GoMap Value) :=
  if ts.Type_ = Image then
    some (mapSet (mapSet m (lit "msgtype") (Value.str (lit "image")))
      (lit "image") (Value.strMap (mediaOnly ts)))
  else if ts.Type_ = Voice then
    some (mapSet (mapSet m (lit "msgtype") (Value.str (lit "voice")))
      (lit "voice") (Value.strMap (mediaOnly ts)))
  else if ts.Type_ = Video then
    let Title :=
      if ts.VideoSettings.Title = [] then lit "Video_" ++ FormatInt env.now
      else ts.VideoSettings.Title
    some (mapSet (mapSet m (lit "msgtype") (Value.str (lit "video")))
      (lit "video") (Value.strMap
        (mapSet (mapSet (mapSet [] (lit "media_id") ts.MediaID) (lit "title") Title)
          (lit "description") ts.VideoSettings.Description)))
  else if ts.Type_ = File then
    some (mapSet (mapSet m (lit "msgtype") (Value.str (lit "file")))
      (lit "file") (Value.strMap (mediaOnly ts)))
  else none

/-- The value of `RequestBodyMap` when it is passed to `json.Marshal`, or
`none` when the `default` case returns before. -/
def RequestBodyMap (env : Env) (AppID Username : Bytes) (ts : TypeStruct) :
    Option (GoMap Value) :=
  (switchType env ts
    (mapSet (mapSet [] (lit "touser") (Value.str Username)) (lit "agentid") (Value.str AppID))).map
    (fun m => mapSet (mapSet m (lit "enable_duplicate_check") (Value.int 0))
      (lit "duplicate_check_interval") (Value.int 1800))

/-- The local type `ResponseBodyStruct` of `SendFile`. -/
structure ResponseBodyStruct where
  ErrCode : Int
  ErrMsg : Bytes
  InvalidUser : Bytes
  MsgId : Bytes
  ResponseCode : Bytes
deriving DecidableEq, Repr

/-- The JSON names and Go types of the fields of `ResponseBodyStruct` (the Go
type `int` of `ErrCode` is 64 bits wide). -/
def shape : List (Bytes × FieldType) :=
  [(lit "errcode", FieldType.int64), (lit "errmsg", FieldType.string),
   (lit "invaliduser", FieldType.string), (lit "msgid", FieldType.string),
   (lit "response_code", FieldType.string)]

/-- The call `json.Unmarshal(DataRaw, &ResponseBody)`: the struct on success. -/
def unmarshal (DataRaw : Bytes) : Option ResponseBodyStruct :=
  (Unmarshal shape DataRaw).map (fun f =>
    { ErrCode := fieldInt f (lit "errcode")
      ErrMsg := fieldStr f (lit "errmsg")
      InvalidUser := fieldStr f (lit "invaliduser")
      MsgId := fieldStr f (lit "msgid")
      ResponseCode := fieldStr f (lit "response_code") })

/-- The value of the variable `URL` of `SendFile`. -/
def URL (env : Env) (AccessToken : Bytes) : URL :=
  apiURL env (lit "/cgi-bin/message/send") (mapSet [] (lit "access_token") AccessToken)

end SendFile

/-- The function `SendFile`. -/
def SendFile (env : Env) (AccessToken AppID Username : Bytes) (TypeSettings : TypeStruct) :
    Run (Option GoError) :=
  let URL := SendFile.URL env AccessToken
  match SendFile.RequestBodyMap env AppID Username TypeSettings with
  | none => ⟨[], some (errorsNew .invalidArgument (lit "invalid type"))⟩
  | some RequestBodyMap =>
    match MarshalMap RequestBodyMap with
    | .error err => ⟨[], some (errorsNew .decode (lit "json parse fail: " ++ err))⟩
    | .ok RequestBodyBytes =>
      match env.newRequestErr (lit "POST") URL.String with
      | some err => ⟨[], some (errorsNew .transport (lit "create request fail: " ++ err))⟩
      | none =>
        let Request : Request :=
          { Method := lit "POST", URL := URL.String, Body := some RequestBodyBytes, Header := [] }
        match env.Do Request with
        | .error err =>
          ⟨[Request], some (errorsNew .transport (lit "get response fail: " ++ err))⟩
        | .ok Response =>
          if Response.StatusCode ≠ 200 then
            ⟨[Request], some (errorsNew .httpStatus
              (lit "fail to get body, status code: " ++ Response.Status))⟩
          else
            match Response.Body.err with
            | some err =>
              ⟨[Request], some (errorsNew .transport (lit "fail to get body: " ++ err))⟩
            | none =>
              let DataRaw := Response.Body.data
              match SendFile.unmarshal DataRaw with
              | none =>
                ⟨[Request], some (errorsNew .decode
                  (lit "json parse fail: " ++ env.unmarshalErr DataRaw))⟩
              | some ResponseBody =>
                if ResponseBody.ErrCode ≠ 0 then
                  ⟨[Request], some (errorsNew .remoteAPI ResponseBody.ErrMsg)⟩
                else ⟨[Request], none⟩

namespace UploadFileFromStream

/-- The value of `FileNameSmall`: the second result of `filepath.Split`. -/
def FileNameSmall (Filename : Bytes) : Bytes := (filepathSplit Filename).2

/-- The MIME header `h` of the form part after its two `Set` calls. -/
def partHeader (Filename : Bytes) : GoMap Bytes :=
  mapSet
    (mapSet [] (lit "Content-Disposition")
      (lit "form-data; name=\"media\"; filename=\"" ++ FileNameSmall Filename ++ lit "\""))
    (lit "Content-Type") (lit "application/octet-stream")

/-- The local type `ResponseBodyStruct` of `UploadFileFromStream`. -/
structure ResponseBodyStruct where
  ErrCode : Int
  ErrMsg : Bytes
  Type_ : Bytes
  MediaID : Bytes
  CreatedTime : Bytes
deriving DecidableEq, Repr

/-- The JSON names and Go types of the fields of `ResponseBodyStruct`. -/
def shape : List (Bytes × FieldType) :=
  [(lit "errcode", FieldType.int64), (lit "errmsg", FieldType.string),
   (lit "type", FieldType.string), (lit "media_id", FieldType.string),
   (lit "created_at", FieldType.string)]

/-- The call `json.Unmarshal(DataRaw, &ResponseJson)`: the struct on success. -/
def unmarshal (DataRaw : Bytes) : Option ResponseBodyStruct :=
  (Unmarshal shape DataRaw).map (fun f =>
    { ErrCode := fieldInt f (lit "errcode")
      ErrMsg := fieldStr f (lit "errmsg")
      Type_ := fieldStr f (lit "type")
      MediaID := fieldStr f (lit "media_id")
      CreatedTime := fieldStr f (lit "created_at") })

/-- The value of the variable `URL` of `UploadFileFromStream`. -/
def URL (env : Env) (AccessToken : Bytes) (Type_ : FileType) : URL :=
  apiURL env (lit "/cgi-bin/media/upload")
    (mapSet (mapSet [] (lit "access_token") AccessToken) (lit "type") Type_)

end UploadFileFromStream

/-- The function `UploadFileFromStream`. -/
def UploadFileFromStream (env : Env) (AccessToken : Bytes) (Stream : Stream)
    (Filename : Bytes) (Type_ : FileType) : Run (Bytes × Option GoError) :=
  let h := UploadFileFromStream.partHeader Filename
  match createPart env.boundary h with
  | .error err => ⟨[], [], some (errorsNew .transport (lit "file read prepare fail: " ++ err))⟩
  | .ok partHead =>
    match Stream.err with
    | some err => ⟨[], [], some (errorsNew .transport (lit "io copy fail: " ++ err))⟩
    | none =>
      let ContentType := FormDataContentType env.boundary
      let bodyBuf := partHead ++ Stream.data ++ closeWriter env.boundary
      let URL := UploadFileFromStream.URL env AccessToken Type_
      match env.newRequestErr (lit "POST") URL.String with
      | some err => ⟨[], [], some (errorsNew .transport (lit "create request fail: " ++ err))⟩
      | none =>
        let Request : Request :=
          { Method := lit "POST", URL := URL.String, Body := some bodyBuf,
            Header := mapSet [] (lit "Content-Type") ContentType }
        match env.Do Request with
        | .error err =>
          ⟨[Request], [], some (errorsNew .transport (lit "get response fail: " ++ err))⟩
        | .ok Response =>
          if Response.StatusCode ≠ 200 then
            ⟨[Request], [], some (errorsNew .httpStatus
              (lit "fail to get body, status code: " ++ Response.Status))⟩
          else
            match Response.Body.err with
            | some err =>
              ⟨[Request], [], some (errorsNew .transport (lit "fail to get body: " ++ err))⟩
            | none =>
              let DataRaw := Response.Body.data
              match UploadFileFromStream.unmarshal DataRaw with
              | none =>
                ⟨[Request], [], some (errorsNew .decode
                  (lit "json parse fail: " ++ env.unmarshalErr DataRaw))⟩
              | some ResponseJson =>
                if ResponseJson.ErrCode ≠ 0 then
                  ⟨[Request], [], some (errorsNew .remoteAPI ResponseJson.ErrMsg)⟩
                else ⟨[Request], ResponseJson.MediaID, none⟩

/-! ## Test doubles and the vocabulary of the specification -/

/-- A stub server: `http.NewRequest` accepts every URL, `Client.Do` answers
every request with `resp`, and `json.Unmarshal` words its errors as `text`; the
clock, map order and boundary are fixed. -/
def stubServerWith (resp : Response) (text : Bytes) : Env :=
  { now := 1700000000
    mapSeed := 0
    boundary := lit "b0"
    newRequestErr := fun _ _ => none
    Do := fun _ => .ok resp
    unmarshalErr := fun _ => text }

/-- A stub server with a fixed wording of the errors of `json.Unmarshal`. -/
def stubServer (resp : Response) : Env :=
  stubServerWith resp (lit "json: invalid input")

/-- A response with status 200 and the given body. -/
def ok200 (body : Bytes) : Response :=
  { StatusCode := 200, Status := lit "200 OK", Body := { data := body, err := none } }

/-- The pieces of a string between the occurrences of the byte `sep`. -/
def splitOn (sep : UInt8) : Bytes → List Bytes
  | [] => [[]]
  | b :: s =>
    if b = sep then [] :: splitOn sep s
    else
      match splitOn sep s with
      | [] => [[b]]
      | piece :: pieces => (b :: piece) :: pieces

/-- The parts of a string before and after the first occurrence of the byte
`sep` (the second part is empty when `sep` does not occur). -/
def cutFirst (sep : UInt8) (s : Bytes) : Bytes × Bytes :=
  (s.takeWhile (fun b => b != sep), (s.dropWhile (fun b => b != sep)).tail)

/-- The query parameters of a query string as the specification reads them:
the query is split on `&` and each piece on its first `=`. -/
def queryPairs (q : Bytes) : List (Bytes × Bytes) :=
  (splitOn 0x26 q).map (cutFirst 0x3D)

/-- A body as the specification words it: a well-formed JSON object whose
member `errcode` is the number 0. -/
def isObjectWithErrcodeZero (body : Bytes) : Bool :=
  match parseTop body with
  | some (Top.object members) => mapGet members (lit "errcode") = some (Item.number (lit "0"))
  | _ => false

/-- A call of one of the four operations. -/
inductive Call
  | getToken (CorpID CorpSecret : Bytes)
  | sendText (AccessToken AppID Username Data : Bytes)
  | sendFile (AccessToken AppID Username : Bytes) (TypeSettings : TypeStruct)
  | upload (AccessToken : Bytes) (Stream : Stream) (Filename : Bytes) (Type_ : FileType)
deriving DecidableEq, Repr

/-- The error a call returns in an environment (`none` for `nil`). -/
def Call.failure (env : Env) : Call → Option GoError
  | Call.getToken CorpID CorpSecret => (GetToken env CorpID CorpSecret).ret.2.2
  | Call.sendText AccessToken AppID Username Data =>
    (SendText env AccessToken AppID Username Data).ret
  | Call.sendFile AccessToken AppID Username TypeSettings =>
    (SendFile env AccessToken AppID Username TypeSettings).ret
  | Call.upload AccessToken Stream Filename Type_ =>
    (UploadFileFromStream env AccessToken Stream Filename Type_).ret.2

/-- The kind of failure a caller can read off an error message: the fixed
message of the unsupported media type, the fixed lead texts of the other
locally made messages, and the remote kind for every other message. -/
def classify (msg : Bytes) : Stage :=
  if msg = lit "invalid type" then Stage.invalidArgument
  else if startsWith (lit "fail to get body, status code: ") msg then Stage.httpStatus
  else if startsWith (lit "json parse fail: ") msg then Stage.decode
  else if startsWith (lit "create request fail: ") msg
      || startsWith (lit "get response fail: ") msg
      || startsWith (lit "fail to get body: ") msg
      || startsWith (lit "file read prepare fail: ") msg
      || startsWith (lit "io copy fail: ") msg then Stage.transport
  else Stage.remoteAPI

/-- The loop of `coerceUTF8`: an ASCII byte is kept, any other position is
decoded by `utf8.DecodeRune` and the rune re-encoded by `utf8.AppendRune`. -/
def coerceLoop : Nat → Bytes → Bytes
  | 0, _ => []
  | _, [] => []
  | fuel + 1, b :: s =>
    if b.toNat < 0x80 then b :: coerceLoop fuel s
    else
      let cs := decodeRune (b :: s)
      encodeRune cs.1 ++ coerceLoop fuel ((b :: s).drop cs.2)

/-- The text of a Go string as JSON can carry it: the string with every byte
that does not belong to a valid UTF-8 sequence replaced by U+FFFD (the bytes
`EF BF BD`), one replacement for each such byte. -/
def coerceUTF8 (s : Bytes) : Bytes := coerceLoop s.length s

/-- The loop of `utf8Valid`. -/
def validLoop : Nat → Bytes → Bool
  | 0, s => s.isEmpty
  | _, [] => true
  | fuel + 1, b :: s =>
    if b.toNat < 0x80 then validLoop fuel s
    else if (decodeRune (b :: s)).2 = 1 then false
    else validLoop fuel ((b :: s).drop (decodeRune (b :: s)).2)

/-- Go `utf8.Valid`: the string consists of valid UTF-8 sequences only. -/
def utf8Valid (s : Bytes) : Bool := validLoop s.length s

/-! ## Runs that reach the network -/

theorem GetToken_sent_mem {env : Env} {CorpID CorpSecret : Bytes} {req : Request}
    (hmem : req ∈ (GetToken env CorpID CorpSecret).sent) :
    env.newRequestErr (lit "GET") (GetToken.URL env CorpID CorpSecret).String = none ∧
    req = { Method := lit "GET", URL := (GetToken.URL env CorpID CorpSecret).String,
            Body := none, Header := [] } := by
  simp only [GetToken] at hmem
  cases hn : env.newRequestErr (lit "GET") (GetToken.URL env CorpID CorpSecret).String with
  | some e => simp [hn] at hmem
  | none =>
    simp only [hn] at hmem
    refine ⟨rfl, ?_⟩
    (repeat' split at hmem) <;> simpa using hmem

theorem SendText_sent_mem {env : Env} {AccessToken AppID Username Data : Bytes} {req : Request}
    (hmem : req ∈ (SendText env AccessToken AppID Username Data).sent) :
    ∃ body, SendText.Marshal (SendText.RequestBody AppID Username Data) = .ok body ∧
      env.newRequestErr (lit "POST") (SendText.URL env AccessToken).String = none ∧
      req = { Method := lit "POST", URL := (SendText.URL env AccessToken).String,
              Body := some body, Header := [] } := by
  simp only [SendText] at hmem
  cases hb : SendText.Marshal (SendText.RequestBody AppID Username Data) with
  | error e => simp [hb] at hmem
  | ok body =>
    simp only [hb] at hmem
    cases hn : env.newRequestErr (lit "POST") (SendText.URL env AccessToken).String with
    | some e => simp [hn] at hmem
    | none =>
      simp only [hn] at hmem
      refine ⟨body, rfl, rfl, ?_⟩
      (repeat' split at hmem) <;> simpa using hmem

theorem SendFile_sent_mem {env : Env} {AccessToken AppID Username : Bytes} {ts : TypeStruct}
    {req : Request} (hmem : req ∈ (SendFile env AccessToken AppID Username ts).sent) :
    ∃ m body, SendFile.RequestBodyMap env AppID Username ts = some m ∧
      MarshalMap m = .ok body ∧
      env.newRequestErr (lit "POST") (SendFile.URL env AccessToken).String = none ∧
      req = { Method := lit "POST", URL := (SendFile.URL env AccessToken).String,
              Body := some body, Header := [] } := by
  simp only [SendFile] at hmem
  cases hm : SendFile.RequestBodyMap env AppID Username ts with
  | none => simp [hm] at hmem
  | some m =>
    simp only [hm] at hmem
    cases hb : MarshalMap m with
    | error e => simp [hb] at hmem
    | ok body =>
      simp only [hb] at hmem
      cases hn : env.newRequestErr (lit "POST") (SendFile.URL env AccessToken).String with
      | some e => simp [hn] at hmem
      | none =>
        simp only [hn] at hmem
        refine ⟨m, body, rfl, hb, rfl, ?_⟩
        (repeat' split at hmem) <;> simpa using hmem

theorem UploadFileFromStream_sent_mem {env : Env} {AccessToken : Bytes} {Stream : Stream}
    {Filename : Bytes} {Type_ : FileType} {req : Request}
    (hmem : req ∈ (UploadFileFromStream env AccessToken Stream Filename Type_).sent) :
    ∃ partHead, createPart env.boundary (UploadFileFromStream.partHeader Filename) = .ok partHead ∧
      Stream.err = none ∧
      env.newRequestErr (lit "POST")
        (UploadFileFromStream.URL env AccessToken Type_).String = none ∧
      req = { Method := lit "POST", URL := (UploadFileFromStream.URL env AccessToken Type_).String,
              Body := some (partHead ++ Stream.data ++ closeWriter env.boundary),
              Header := mapSet [] (lit "Content-Type") (FormDataContentType env.boundary) } := by
  simp only [UploadFileFromStream] at hmem
  cases hp : createPart env.boundary (UploadFileFromStream.partHeader Filename) with
  | error e => simp [hp] at hmem
  | ok partHead =>
    simp only [hp] at hmem
    cases hs : Stream.err with
    | some e => simp [hs] at hmem
    | none =>
      simp only [hs] at hmem
      cases hn : env.newRequestErr (lit "POST")
          (UploadFileFromStream.URL env AccessToken Type_).String with
      | some e => simp [hn] at hmem
      | none =>
        simp only [hn] at hmem
        refine ⟨partHead, rfl, rfl, rfl, ?_⟩
        (repeat' split at hmem) <;> simpa using hmem

/-! ## Maps, queries and paths -/

theorem mapRange_single {V : Type} (seed : Nat) (a : Bytes × V) : mapRange seed [a] = [a] := by
  simp [mapRange, List.permutations, List.permutationsAux, List.permutationsAux.rec]

theorem mapRange_pair {V : Type} (seed : Nat) (a b : Bytes × V) :
    mapRange seed [a, b] = [a, b] ∨ mapRange seed [a, b] = [b, a] := by
  have hp : [a, b].permutations = [[a, b], [b, a]] := by
    simp [List.permutations, List.permutationsAux, List.permutationsAux.rec,
      List.permutationsAux2]
  unfold mapRange
  rw [hp]
  rcases Nat.mod_two_eq_zero_or_one seed with h | h <;> simp [h]

theorem splitOn_of_not_mem (sep : UInt8) (a : Bytes) (h : sep ∉ a) : splitOn sep a = [a] := by
  induction a with
  | nil => rfl
  | cons b a ih =>
    have hb : b ≠ sep := fun e => h (e ▸ List.mem_cons_self _ _)
    have ha : sep ∉ a := fun m => h (List.mem_cons_of_mem _ m)
    simp [splitOn, hb, ih ha]

theorem splitOn_append (sep : UInt8) (a b : Bytes) (h : sep ∉ a) :
    splitOn sep (a ++ sep :: b) = a :: splitOn sep b := by
  induction a with
  | nil => simp [splitOn]
  | cons c a ih =>
    have hc : c ≠ sep := fun e => h (e ▸ List.mem_cons_self _ _)
    have ha : sep ∉ a := fun m => h (List.mem_cons_of_mem _ m)
    simp [splitOn, hc, ih ha]

theorem cutFirst_append (sep : UInt8) (k v : Bytes) (h : sep ∉ k) :
    cutFirst sep (k ++ sep :: v) = (k, v) := by
  induction k with
  | nil => simp [cutFirst]
  | cons c k ih =>
    have hc : c ≠ sep := fun e => h (e ▸ List.mem_cons_self _ _)
    have hk : sep ∉ k := fun m => h (List.mem_cons_of_mem _ m)
    have := ih hk
    simp only [cutFirst, Prod.mk.injEq] at this ⊢
    simp [hc, this.1, this.2]

theorem filepathSplit_append (path : Bytes) :
    (filepathSplit path).1 ++ (filepathSplit path).2 = path := by
  simp only [filepathSplit, List.rdropWhile, List.rtakeWhile]
  rw [← List.reverse_append, List.takeWhile_append_dropWhile, List.reverse_reverse]

theorem filepathSplit_no_separator (path : Bytes) : (0x2F : UInt8) ∉ (filepathSplit path).2 := by
  intro hmem
  have := List.mem_rtakeWhile_imp hmem
  simp at this

theorem filepathSplit_dir (path : Bytes) :
    (filepathSplit path).1 = [] ∨ (filepathSplit path).1.getLast? = some 0x2F := by
  by_cases hne : (filepathSplit path).1 = []
  · exact Or.inl hne
  · right
    have h := List.rdropWhile_last_not (fun b => b != 0x2F) path hne
    rw [List.getLast?_eq_getLast _ hne]
    simpa using h


theorem lit_eq : lit "=" = [0x3D] := by decide

theorem lit_amp : lit "&" = [0x26] := by decide

theorem queryPairs_one (k v : Bytes) (hk : (0x26 : UInt8) ∉ k) (hke : (0x3D : UInt8) ∉ k)
    (hv : (0x26 : UInt8) ∉ v) :
    queryPairs (k ++ lit "=" ++ v) = [(k, v)] := by
  have h1 : (0x26 : UInt8) ∉ k ++ 0x3D :: v := by
    simp only [List.mem_append, List.mem_cons, not_or]
    exact ⟨hk, by decide, hv⟩
  have e : k ++ lit "=" ++ v = k ++ 0x3D :: v := by simp [lit_eq]
  rw [e, queryPairs, splitOn_of_not_mem _ _ h1]
  simp [cutFirst_append _ _ _ hke]

theorem queryPairs_two (k1 v1 k2 v2 : Bytes)
    (hk1 : (0x26 : UInt8) ∉ k1) (hke1 : (0x3D : UInt8) ∉ k1) (hv1 : (0x26 : UInt8) ∉ v1)
    (hk2 : (0x26 : UInt8) ∉ k2) (hke2 : (0x3D : UInt8) ∉ k2) (hv2 : (0x26 : UInt8) ∉ v2) :
    queryPairs (Join [k1 ++ lit "=" ++ v1, k2 ++ lit "=" ++ v2] (lit "&"))
      = [(k1, v1), (k2, v2)] := by
  have h1 : (0x26 : UInt8) ∉ k1 ++ 0x3D :: v1 := by
    simp only [List.mem_append, List.mem_cons, not_or]
    exact ⟨hk1, by decide, hv1⟩
  have h2 : (0x26 : UInt8) ∉ k2 ++ 0x3D :: v2 := by
    simp only [List.mem_append, List.mem_cons, not_or]
    exact ⟨hk2, by decide, hv2⟩
  have e : Join [k1 ++ lit "=" ++ v1, k2 ++ lit "=" ++ v2] (lit "&")
      = (k1 ++ 0x3D :: v1) ++ 0x26 :: (k2 ++ 0x3D :: v2) := by
    simp [Join, lit_eq, lit_amp]
  rw [e, queryPairs, splitOn_append _ _ _ h1, splitOn_of_not_mem _ _ h2]
  simp [cutFirst_append _ _ _ hke1, cutFirst_append _ _ _ hke2]

theorem rawQuery_single (seed : Nat) (k v : Bytes) :
    rawQuery seed (mapSet [] k v) = k ++ lit "=" ++ v := by
  simp [rawQuery, mapSet, mapRange_single, Join]

theorem rawQuery_pair (seed : Nat) (k1 v1 k2 v2 : Bytes) (hk : k1 ≠ k2) :
    rawQuery seed (mapSet (mapSet [] k1 v1) k2 v2)
        = Join [k1 ++ lit "=" ++ v1, k2 ++ lit "=" ++ v2] (lit "&") ∨
    rawQuery seed (mapSet (mapSet [] k1 v1) k2 v2)
        = Join [k2 ++ lit "=" ++ v2, k1 ++ lit "=" ++ v1] (lit "&") := by
  have hm : mapSet (mapSet [] k1 v1) k2 v2 = [(k1, v1), (k2, v2)] := by simp [mapSet, hk]
  rw [hm]
  rcases mapRange_pair seed (k1, v1) (k2, v2) with h | h
  · left; simp [rawQuery, h]
  · right; simp [rawQuery, h]

theorem splitOn_ne_nil (sep : UInt8) (s : Bytes) : splitOn sep s ≠ [] := by
  cases s with
  | nil => simp [splitOn]
  | cons b s =>
    simp only [splitOn]
    split
    · simp
    · split <;> simp

theorem length_splitOn (sep : UInt8) (s : Bytes) :
    (splitOn sep s).length = s.count sep + 1 := by
  induction s with
  | nil => simp [splitOn]
  | cons b s ih =>
    by_cases hb : b = sep
    · subst hb
      simp [splitOn, ih]
    · have hne := splitOn_ne_nil sep s
      have hc : (b :: s).count sep = s.count sep := by
        simp [List.count_cons, hb]
      rw [hc, ← ih]
      simp only [splitOn, hb, if_false]
      cases hsp : splitOn sep s with
      | nil => exact absurd hsp hne
      | cons p ps => simp

theorem length_queryPairs (q : Bytes) : (queryPairs q).length = q.count 0x26 + 1 := by
  simp [queryPairs, length_splitOn]

/-- The restriction to values without `&` cannot be dropped: a `&` in `CorpID`
or `CorpSecret` makes the query of `GetToken` split into more than two
parameters. -/
theorem query_parameters_tight (env : Env) (CorpID CorpSecret : Bytes)
    (h : (0x26 : UInt8) ∈ CorpID ∨ (0x26 : UInt8) ∈ CorpSecret) :
    2 < (queryPairs (GetToken.URL env CorpID CorpSecret).RawQuery).length := by
  have hpos : 0 < CorpID.count 0x26 + CorpSecret.count 0x26 := by
    rcases h with h | h
    · have := List.count_pos_iff.mpr h
      omega
    · have := List.count_pos_iff.mpr h
      omega
  have c1 : (lit "corpid").count 0x26 = 0 := by decide
  have c2 : (lit "corpsecret").count 0x26 = 0 := by decide
  rw [length_queryPairs]
  rcases rawQuery_pair env.mapSeed (lit "corpid") CorpID (lit "corpsecret") CorpSecret
    (by decide) with hq | hq
  · simp only [GetToken.URL, apiURL, hq, Join, lit_eq, lit_amp, List.count_append, c1, c2]
    simp
    omega
  · simp only [GetToken.URL, apiURL, hq, Join, lit_eq, lit_amp, List.count_append, c1, c2]
    simp
    omega

/-! ## The request bodies -/

theorem SendText_body (AppID Username Data : Bytes) :
    SendText.Marshal (SendText.RequestBody AppID Username Data)
      = .ok (lit "\x7b\"touser\":" ++ encodeString Username
          ++ lit ",\"msgtype\":\"text\",\"agentid\":" ++ encodeString AppID
          ++ lit ",\"text\":\x7b\"content\":" ++ encodeString Data
          ++ lit "\x7d,\"enable_duplicate_check\":0,\"duplicate_check_interval\":1800\x7d") := by
  simp only [SendText.Marshal, SendText.RequestBody, List.append_assoc, Except.ok.injEq]
  rfl

theorem RequestBodyMap_video (env : Env) (AppID Username MediaID Title Description : Bytes) :
    SendFile.RequestBodyMap env AppID Username ⟨Video, MediaID, ⟨Title, Description⟩⟩
      = some
        [(lit "touser", Value.str Username), (lit "agentid", Value.str AppID),
         (lit "msgtype", Value.str (lit "video")),
         (lit "video", Value.strMap
           [(lit "media_id", MediaID),
            (lit "title", if Title = [] then lit "Video_" ++ FormatInt env.now else Title),
            (lit "description", Description)]),
         (lit "enable_duplicate_check", Value.int 0),
         (lit "duplicate_check_interval", Value.int 1800)] := by
  rfl

theorem MarshalMap_video (AppID Username MediaID Title Description : Bytes) :
    MarshalMap
        [(lit "touser", Value.str Username), (lit "agentid", Value.str AppID),
         (lit "msgtype", Value.str (lit "video")),
         (lit "video", Value.strMap
           [(lit "media_id", MediaID), (lit "title", Title), (lit "description", Description)]),
         (lit "enable_duplicate_check", Value.int 0),
         (lit "duplicate_check_interval", Value.int 1800)]
      = .ok (lit "\x7b\"agentid\":" ++ encodeString AppID
          ++ lit ",\"duplicate_check_interval\":1800,\"enable_duplicate_check\":0"
          ++ lit ",\"msgtype\":\"video\",\"touser\":" ++ encodeString Username
          ++ lit ",\"video\":\x7b\"description\":" ++ encodeString Description
          ++ lit ",\"media_id\":" ++ encodeString MediaID
          ++ lit ",\"title\":" ++ encodeString Title ++ lit "\x7d\x7d") := by
  have h1 : sortByKey
        [(lit "touser", Value.str Username), (lit "agentid", Value.str AppID),
         (lit "msgtype", Value.str (lit "video")),
         (lit "video", Value.strMap
           [(lit "media_id", MediaID), (lit "title", Title), (lit "description", Description)]),
         (lit "enable_duplicate_check", Value.int 0),
         (lit "duplicate_check_interval", Value.int 1800)]
      = [(lit "agentid", Value.str AppID), (lit "duplicate_check_interval", Value.int 1800),
         (lit "enable_duplicate_check", Value.int 0), (lit "msgtype", Value.str (lit "video")),
         (lit "touser", Value.str Username),
         (lit "video", Value.strMap
           [(lit "media_id", MediaID), (lit "title", Title), (lit "description", Description)])] := by
    rfl
  have h2 : sortByKey
        [(lit "media_id", MediaID), (lit "title", Title), (lit "description", Description)]
      = [(lit "description", Description), (lit "media_id", MediaID), (lit "title", Title)] := by
    rfl
  simp only [MarshalMap, h1, List.map, Join, encodeValue, encodeStrMap, h2, List.append_assoc,
    Except.ok.injEq]
  rfl

theorem RequestBodyMap_media (env : Env) (AppID Username : Bytes) (ts : TypeStruct)
    (ht : ts.Type_ = Image ∨ ts.Type_ = Voice ∨ ts.Type_ = File) :
    SendFile.RequestBodyMap env AppID Username ts
      = some
        [(lit "touser", Value.str Username), (lit "agentid", Value.str AppID),
         (lit "msgtype", Value.str ts.Type_),
         (ts.Type_, Value.strMap [(lit "media_id", ts.MediaID)]),
         (lit "enable_duplicate_check", Value.int 0),
         (lit "duplicate_check_interval", Value.int 1800)] := by
  obtain ⟨ty, MediaID, vs⟩ := ts
  simp only at ht
  rcases ht with h | h | h <;> subst h <;> rfl

theorem MarshalMap_image (AppID Username MediaID : Bytes) :
    MarshalMap
        [(lit "touser", Value.str Username), (lit "agentid", Value.str AppID),
         (lit "msgtype", Value.str Image),
         (Image, Value.strMap [(lit "media_id", MediaID)]),
         (lit "enable_duplicate_check", Value.int 0),
         (lit "duplicate_check_interval", Value.int 1800)]
      = .ok (lit "\x7b\"agentid\":" ++ encodeString AppID
          ++ lit ",\"duplicate_check_interval\":1800,\"enable_duplicate_check\":0"
          ++ lit ",\"image\":\x7b\"media_id\":" ++ encodeString MediaID
          ++ lit "\x7d,\"msgtype\":\"image\",\"touser\":" ++ encodeString Username
          ++ lit "\x7d") := by
  have h1 : sortByKey
        [(lit "touser", Value.str Username), (lit "agentid", Value.str AppID),
         (lit "msgtype", Value.str Image),
         (Image, Value.strMap [(lit "media_id", MediaID)]),
         (lit "enable_duplicate_check", Value.int 0),
         (lit "duplicate_check_interval", Value.int 1800)]
      = [(lit "agentid", Value.str AppID), (lit "duplicate_check_interval", Value.int 1800),
         (lit "enable_duplicate_check", Value.int 0),
         (Image, Value.strMap [(lit "media_id", MediaID)]),
         (lit "msgtype", Value.str Image), (lit "touser", Value.str Username)] := by
    rfl
  simp only [MarshalMap, h1, List.map, Join, encodeValue, encodeStrMap, sortByKey, insertByKey,
    List.append_assoc, Except.ok.injEq]
  rfl

theorem MarshalMap_file (AppID Username MediaID : Bytes) :
    MarshalMap
        [(lit "touser", Value.str Username), (lit "agentid", Value.str AppID),
         (lit "msgtype", Value.str File),
         (File, Value.strMap [(lit "media_id", MediaID)]),
         (lit "enable_duplicate_check", Value.int 0),
         (lit "duplicate_check_interval", Value.int 1800)]
      = .ok (lit "\x7b\"agentid\":" ++ encodeString AppID
          ++ lit ",\"duplicate_check_interval\":1800,\"enable_duplicate_check\":0"
          ++ lit ",\"file\":\x7b\"media_id\":" ++ encodeString MediaID
          ++ lit "\x7d,\"msgtype\":\"file\",\"touser\":" ++ encodeString Username
          ++ lit "\x7d") := by
  have h1 : sortByKey
        [(lit "touser", Value.str Username), (lit "agentid", Value.str AppID),
         (lit "msgtype", Value.str File),
         (File, Value.strMap [(lit "media_id", MediaID)]),
         (lit "enable_duplicate_check", Value.int 0),
         (lit "duplicate_check_interval", Value.int 1800)]
      = [(lit "agentid", Value.str AppID), (lit "duplicate_check_interval", Value.int 1800),
         (lit "enable_duplicate_check", Value.int 0),
         (File, Value.strMap [(lit "media_id", MediaID)]),
         (lit "msgtype", Value.str File), (lit "touser", Value.str Username)] := by
    rfl
  simp only [MarshalMap, h1, List.map, Join, encodeValue, encodeStrMap, sortByKey, insertByKey,
    List.append_assoc, Except.ok.injEq]
  rfl

theorem MarshalMap_voice (AppID Username MediaID : Bytes) :
    MarshalMap
        [(lit "touser", Value.str Username), (lit "agentid", Value.str AppID),
         (lit "msgtype", Value.str Voice),
         (Voice, Value.strMap [(lit "media_id", MediaID)]),
         (lit "enable_duplicate_check", Value.int 0),
         (lit "duplicate_check_interval", Value.int 1800)]
      = .ok (lit "\x7b\"agentid\":" ++ encodeString AppID
          ++ lit ",\"duplicate_check_interval\":1800,\"enable_duplicate_check\":0"
          ++ lit ",\"msgtype\":\"voice\",\"touser\":" ++ encodeString Username
          ++ lit ",\"voice\":\x7b\"media_id\":" ++ encodeString MediaID ++ lit "\x7d\x7d") := by
  have h1 : sortByKey
        [(lit "touser", Value.str Username), (lit "agentid", Value.str AppID),
         (lit "msgtype", Value.str Voice),
         (Voice, Value.strMap [(lit "media_id", MediaID)]),
         (lit "enable_duplicate_check", Value.int 0),
         (lit "duplicate_check_interval", Value.int 1800)]
      = [(lit "agentid", Value.str AppID), (lit "duplicate_check_interval", Value.int 1800),
         (lit "enable_duplicate_check", Value.int 0),
         (lit "msgtype", Value.str Voice), (lit "touser", Value.str Username),
         (Voice, Value.strMap [(lit "media_id", MediaID)])] := by
    rfl
  simp only [MarshalMap, h1, List.map, Join, encodeValue, encodeStrMap, sortByKey, insertByKey,
    List.append_assoc, Except.ok.injEq]
  rfl

theorem escapeLoop_plain (s : Bytes) :
    ∀ fuel : Nat, s.length ≤ fuel → (∀ b ∈ s, htmlSafe b.toNat = true) → escapeLoop fuel s = s := by
  induction s with
  | nil => intro fuel _ _; cases fuel <;> rfl
  | cons b s ih =>
    intro fuel hlen hsafe
    cases fuel with
    | zero => simp at hlen
    | succ fuel =>
      have hb : htmlSafe b.toNat = true := hsafe b (List.mem_cons_self _ _)
      have hlt : b.toNat < 0x80 := by
        simp only [htmlSafe, Bool.and_eq_true, decide_eq_true_eq] at hb
        exact hb.1.1.1.1.1.2
      have hs : ∀ c ∈ s, htmlSafe c.toNat = true := fun c hc => hsafe c (List.mem_cons_of_mem _ hc)
      have hl : s.length ≤ fuel := by simpa using hlen
      simp [escapeLoop, hlt, hb, ih fuel hl hs]

theorem encodeString_plain (s : Bytes) (h : ∀ b ∈ s, htmlSafe b.toNat = true) :
    encodeString s = lit "\"" ++ s ++ lit "\"" := by
  simp [encodeString, escapeLoop_plain s s.length (le_refl _) h]

/-! ## The kind of failure read off a message -/

theorem classify_createRequest (x : Bytes) :
    classify (lit "create request fail: " ++ x) = Stage.transport := by rfl

theorem classify_getResponse (x : Bytes) :
    classify (lit "get response fail: " ++ x) = Stage.transport := by rfl

theorem classify_getBody (x : Bytes) :
    classify (lit "fail to get body: " ++ x) = Stage.transport := by rfl

theorem classify_readPrepare (x : Bytes) :
    classify (lit "file read prepare fail: " ++ x) = Stage.transport := by rfl

theorem classify_ioCopy (x : Bytes) :
    classify (lit "io copy fail: " ++ x) = Stage.transport := by rfl

theorem classify_status (x : Bytes) :
    classify (lit "fail to get body, status code: " ++ x) = Stage.httpStatus := by rfl

theorem classify_jsonParse (x : Bytes) :
    classify (lit "json parse fail: " ++ x) = Stage.decode := by rfl

theorem classify_invalidType : classify (lit "invalid type") = Stage.invalidArgument := by rfl

theorem classify_of_failure (env : Env) (c : Call) (e : GoError) (h : c.failure env = some e) :
    e.stage = Stage.remoteAPI ∨ classify e.msg = e.stage := by
  cases c with
  | getToken CorpID CorpSecret =>
    simp only [Call.failure, GetToken] at h
    (repeat' split at h) <;> simp only [errorsNew, Option.some.injEq, reduceCtorEq] at h <;>
      subst h <;> first | (left; rfl) | (right; rfl)
  | sendText AccessToken AppID Username Data =>
    simp only [Call.failure, SendText] at h
    (repeat' split at h) <;> simp only [errorsNew, Option.some.injEq, reduceCtorEq] at h <;>
      subst h <;> first | (left; rfl) | (right; rfl)
  | sendFile AccessToken AppID Username ts =>
    simp only [Call.failure, SendFile] at h
    (repeat' split at h) <;> simp only [errorsNew, Option.some.injEq, reduceCtorEq] at h <;>
      subst h <;> first | (left; rfl) | (right; rfl)
  | upload AccessToken Stream Filename Type_ =>
    simp only [Call.failure, UploadFileFromStream] at h
    (repeat' split at h) <;> simp only [errorsNew, Option.some.injEq, reduceCtorEq] at h <;>
      subst h <;> first | (left; rfl) | (right; rfl)

/-! ## JSON strings written by `Marshal` and read back -/

theorem toNat_lt_256 (b : UInt8) : b.toNat < 256 := by
  rcases b with ⟨⟨n, hn⟩⟩
  exact hn

theorem ofNat_toNat_byte (b : UInt8) : UInt8.ofNat b.toNat = b :=
  UInt8.toNat.inj (UInt8.toNat_ofNat_of_lt (toNat_lt_256 b))

theorem decodeRune_local (b : UInt8) (s : Bytes) (hb : ¬ b.toNat < 0x80) :
    decodeRune (b :: s) = (RuneError, 1) ∨
    (2 ≤ (decodeRune (b :: s)).2 ∧ (decodeRune (b :: s)).2 ≤ (b :: s).length ∧
      ∀ Y : Bytes, decodeRune ((b :: s).take (decodeRune (b :: s)).2 ++ Y) = decodeRune (b :: s)) := by
  simp only [decodeRune, hb, if_false]
  cases hf : firstInfo b.toNat with
  | none => left; rfl
  | some info =>
    obtain ⟨sz, lo, hi⟩ := info
    cases s with
    | nil => left; rfl
    | cons b1 r1 =>
      simp only
      by_cases h1 : (b1.toNat < lo || hi < b1.toNat) = true
      · left; simp [h1]
      · by_cases h2 : sz ≤ 2
        · right
          simp [h1, h2, decodeRune, hb, hf]
        · cases r1 with
          | nil => left; simp [h1, h2]
          | cons b2 r2 =>
            by_cases h3 : notCont b2.toNat = true
            · left; simp [h1, h2, h3]
            · by_cases h4 : sz ≤ 3
              · right
                simp [h1, h2, h3, h4, decodeRune, hb, hf]
              · cases r2 with
                | nil => left; simp [h1, h2, h3, h4]
                | cons b3 r3 =>
                  by_cases h5 : notCont b3.toNat = true
                  · left; simp [h1, h2, h3, h4, h5]
                  · right
                    simp [h1, h2, h3, h4, h5, decodeRune, hb, hf]


theorem parseString_ascii_step_nat (n : Nat) (hlt : n < 0x80) (fp : Nat) (X : Bytes) :
    parseString (fp + 1)
        ((if htmlSafe (UInt8.ofNat n).toNat then [UInt8.ofNat n] else escapeByte (UInt8.ofNat n)) ++ X)
      = (parseString fp X).map (fun r => (UInt8.ofNat n :: r.1, r.2)) := by
  interval_cases n <;> rfl

theorem parseString_ascii_step (b : UInt8) (hlt : b.toNat < 0x80) (fp : Nat) (X : Bytes) :
    parseString (fp + 1) ((if htmlSafe b.toNat then [b] else escapeByte b) ++ X)
      = (parseString fp X).map (fun r => (b :: r.1, r.2)) := by
  have h := parseString_ascii_step_nat b.toNat hlt fp X
  rwa [ofNat_toNat_byte] at h

theorem parseString_replacement (fp : Nat) (X : Bytes) :
    parseString (fp + 1) (lit "\\ufffd" ++ X)
      = (parseString fp X).map (fun r => (encodeRune RuneError ++ r.1, r.2)) := by
  rfl

theorem parseString_separator (fp : Nat) (X : Bytes) (r : Nat) (h : r = 0x2028 ∨ r = 0x2029) :
    parseString (fp + 1) (lit "\\u202" ++ [hexDigit (r % 16)] ++ X)
      = (parseString fp X).map (fun p => (encodeRune r ++ p.1, p.2)) := by
  rcases h with h | h <;> subst h <;> rfl

theorem parseString_raw (fp : Nat) (b : UInt8) (s Y : Bytes) (hb : ¬ b.toNat < 0x80)
    (hk : 2 ≤ (decodeRune (b :: s)).2) (hlen : (decodeRune (b :: s)).2 ≤ (b :: s).length)
    (hloc : ∀ Y : Bytes,
      decodeRune ((b :: s).take (decodeRune (b :: s)).2 ++ Y) = decodeRune (b :: s)) :
    parseString (fp + 1) ((b :: s).take (decodeRune (b :: s)).2 ++ Y)
      = (parseString fp Y).map (fun p => (encodeRune (decodeRune (b :: s)).1 ++ p.1, p.2)) := by
  obtain ⟨k, hk2⟩ : ∃ k, (decodeRune (b :: s)).2 = k + 1 := ⟨(decodeRune (b :: s)).2 - 1, by omega⟩
  have hloc2 := hloc Y
  rw [hk2] at hloc2 hlen ⊢
  simp only [List.take_succ_cons, List.cons_append] at hloc2 ⊢
  have h22 : b ≠ 0x22 := by
    intro e; subst e; exact hb (by decide)
  have h5c : b ≠ 0x5C := by
    intro e; subst e; exact hb (by decide)
  have h20 : ¬ b.toNat < 0x20 := by omega
  simp only [parseString, h22, h20, h5c, hb, if_false, hloc2, hk2]
  congr 1
  simp only [List.drop_succ_cons]
  have hl : (List.take k s).length = k := by
    simp only [List.length_cons] at hlen
    rw [List.length_take]
    omega
  rw [List.drop_left' hl]

theorem decodeRune_size_pos (b : UInt8) (s : Bytes) : 1 ≤ (decodeRune (b :: s)).2 := by
  by_cases hb : b.toNat < 0x80
  · simp [decodeRune, hb]
  · rcases decodeRune_local b s hb with h | h
    · rw [h]
    · omega

theorem parseString_escapeLoop (n : Nat) :
    ∀ (s : Bytes), s.length ≤ n → ∀ (fp : Nat) (rest : Bytes),
      (escapeLoop n s).length + 1 ≤ fp →
      parseString fp (escapeLoop n s ++ 0x22 :: rest) = some (coerceLoop n s, rest) := by
  induction n with
  | zero =>
    intro s hs fp rest hfp
    have : s = [] := List.length_eq_zero.mp (Nat.le_zero.mp hs)
    subst this
    obtain ⟨fp, rfl⟩ : ∃ k, fp = k + 1 := ⟨fp - 1, by omega⟩
    rfl
  | succ n ih =>
    intro s hs fp rest hfp
    cases s with
    | nil =>
      obtain ⟨fp, rfl⟩ : ∃ k, fp = k + 1 := ⟨fp - 1, by omega⟩
      rfl
    | cons b s =>
      have hs2 : s.length ≤ n := by simpa using hs
      obtain ⟨fp, rfl⟩ : ∃ k, fp = k + 1 := ⟨fp - 1, by omega⟩
      by_cases hb : b.toNat < 0x80
      · have hfp2 : (escapeLoop n s).length + 1 ≤ fp := by
          simp only [escapeLoop, hb, if_true, List.length_append] at hfp
          have : 1 ≤ (if htmlSafe b.toNat = true then [b] else escapeByte b).length := by
            split
            · simp
            · simp only [escapeByte]
              repeat' split
              all_goals simp [lit]
              all_goals decide
          omega
        simp only [escapeLoop, coerceLoop, hb, if_true, List.append_assoc]
        rw [parseString_ascii_step b hb, ih s hs2 fp rest hfp2]
        rfl
      · have hpos := decodeRune_size_pos b s
        by_cases hinv : (decodeRune (b :: s)).1 = RuneError ∧ (decodeRune (b :: s)).2 = 1
        · have hfp2 : (escapeLoop n s).length + 1 ≤ fp := by
            have h6 : (lit "\\ufffd").length = 6 := by decide
            simp only [escapeLoop, hb, if_false, hinv, and_self, if_true,
              List.length_append] at hfp
            omega
          simp only [escapeLoop, coerceLoop, hb, if_false, hinv, and_self, if_true,
            List.append_assoc, List.drop_succ_cons, List.drop_zero]
          rw [parseString_replacement, ih s hs2 fp rest hfp2]
          rfl
        · have hdrop : ((b :: s).drop (decodeRune (b :: s)).2).length ≤ n := by
            simp only [List.length_drop, List.length_cons]
            omega
          rcases decodeRune_local b s hb with hbad | ⟨hk, hlen, hloc⟩
          · exact absurd ⟨by rw [hbad], by rw [hbad]⟩ hinv
          · by_cases hsep : (decodeRune (b :: s)).1 = 0x2028 ∨ (decodeRune (b :: s)).1 = 0x2029
            · have hfp2 : (escapeLoop n ((b :: s).drop (decodeRune (b :: s)).2)).length + 1 ≤ fp := by
                have h5 : (lit "\\u202").length = 5 := by decide
                simp only [escapeLoop, hb, if_false, hinv, hsep, if_true,
                  List.length_append] at hfp
                omega
              simp only [escapeLoop, coerceLoop, hb, if_false, hinv, hsep, if_true,
                List.append_assoc]
              have := parseString_separator fp
                (escapeLoop n ((b :: s).drop (decodeRune (b :: s)).2) ++ 0x22 :: rest)
                (decodeRune (b :: s)).1 hsep
              simp only [List.append_assoc] at this
              rw [this, ih _ hdrop fp rest hfp2]
              rfl
            · have hfp2 : (escapeLoop n ((b :: s).drop (decodeRune (b :: s)).2)).length + 1 ≤ fp := by
                have ht : 1 ≤ ((b :: s).take (decodeRune (b :: s)).2).length := by
                  rw [List.length_take]
                  simp only [List.length_cons]
                  omega
                simp only [escapeLoop, hb, if_false, hinv, hsep, List.length_append] at hfp
                omega
              simp only [escapeLoop, coerceLoop, hb, if_false, hinv, hsep, List.append_assoc]
              rw [parseString_raw fp b s _ hb hk hlen hloc, ih _ hdrop fp rest hfp2]
              rfl

theorem read_member_string (F d : Nat) (s0 key sv val X : Bytes)
    (hkey : parseString (s0.length + 1) s0 = some (key, 0x3A :: 0x22 :: sv))
    (hval : parseString (sv.length + 1) sv = some (val, 0x2C :: 0x22 :: X)) :
    read (F + 2) Reader.members d (0x22 :: s0)
      = (read (F + 1) Reader.members d (0x22 :: X)).map
          (fun r => ⟨(key, Item.string val) :: r.members, Item.object, r.rest⟩) := by
  have hs1 : ∀ Y : Bytes, skipSpace (0x3A :: Y) = 0x3A :: Y := fun _ => rfl
  have hs2 : ∀ Y : Bytes, skipSpace (0x22 :: Y) = 0x22 :: Y := fun _ => rfl
  have hs3 : ∀ Y : Bytes, skipSpace (0x2C :: Y) = 0x2C :: Y := fun _ => rfl
  have hv : read (F + 1) Reader.value d (0x22 :: sv)
      = (parseString (sv.length + 1) sv).map (fun r => ⟨[], Item.string r.1, r.2⟩) := rfl
  simp only [read, hkey, hs1, hs2, hs3]
  simp [hv, hval, hs2, hs3]

theorem read_member_string_last (F d : Nat) (s0 key sv val X : Bytes)
    (hkey : parseString (s0.length + 1) s0 = some (key, 0x3A :: 0x22 :: sv))
    (hval : parseString (sv.length + 1) sv = some (val, 0x7D :: X)) :
    read (F + 2) Reader.members d (0x22 :: s0)
      = some ⟨[(key, Item.string val)], Item.object, X⟩ := by
  have hs1 : ∀ Y : Bytes, skipSpace (0x3A :: Y) = 0x3A :: Y := fun _ => rfl
  have hs2 : ∀ Y : Bytes, skipSpace (0x22 :: Y) = 0x22 :: Y := fun _ => rfl
  have hs3 : ∀ Y : Bytes, skipSpace (0x7D :: Y) = 0x7D :: Y := fun _ => rfl
  have hv : read (F + 1) Reader.value d (0x22 :: sv)
      = (parseString (sv.length + 1) sv).map (fun r => ⟨[], Item.string r.1, r.2⟩) := rfl
  simp only [read, hkey, hs1, hs2, hs3]
  simp [hv, hval, hs2, hs3]

theorem read_object_open (F d : Nat) (hd : d < maxNestingDepth) (Y : Bytes) :
    read (F + 2) Reader.value d (0x7B :: 0x22 :: Y)
      = (read F Reader.members (d + 1) (0x22 :: Y)).map
          (fun r => ⟨r.members, Item.object, r.rest⟩) := by
  have hs2 : ∀ Z : Bytes, skipSpace (0x22 :: Z) = 0x22 :: Z := fun _ => rfl
  have hd2 : ¬ maxNestingDepth ≤ d := by omega
  simp [read, hs2, hd2]

theorem read_member_object (F d : Nat) (hd : d < maxNestingDepth) (s0 key Y X : Bytes)
    (inner : List (Bytes × Item))
    (hkey : parseString (s0.length + 1) s0 = some (key, 0x3A :: 0x7B :: 0x22 :: Y))
    (hin : read F Reader.members (d + 1) (0x22 :: Y)
      = some ⟨inner, Item.object, 0x2C :: 0x22 :: X⟩) :
    read (F + 3) Reader.members d (0x22 :: s0)
      = (read (F + 2) Reader.members d (0x22 :: X)).map
          (fun r => ⟨(key, Item.object) :: r.members, Item.object, r.rest⟩) := by
  have hs1 : ∀ Z : Bytes, skipSpace (0x3A :: Z) = 0x3A :: Z := fun _ => rfl
  have hs2 : ∀ Z : Bytes, skipSpace (0x22 :: Z) = 0x22 :: Z := fun _ => rfl
  have hs3 : ∀ Z : Bytes, skipSpace (0x2C :: Z) = 0x2C :: Z := fun _ => rfl
  have hs4 : ∀ Z : Bytes, skipSpace (0x7B :: Z) = 0x7B :: Z := fun _ => rfl
  have hv := read_object_open F d hd Y
  rw [hin] at hv
  have e : read (F + 3) Reader.members d (0x22 :: s0)
      = read (F + 2 + 1) Reader.members d (0x22 :: s0) := rfl
  rw [e, read]
  simp only [hkey, hs1, hs4, hv]
  simp [hs2, hs3]

theorem read_duplicate_check_tail (F d : Nat) :
    read (F + 3) Reader.members d
        (lit "\"enable_duplicate_check\":0,\"duplicate_check_interval\":1800\x7d")
      = some ⟨[(lit "enable_duplicate_check", Item.number (lit "0")),
          (lit "duplicate_check_interval", Item.number (lit "1800"))], Item.object, []⟩ := by
  rfl

theorem parseString_encoded (v rest : Bytes) :
    parseString ((escapeLoop v.length v ++ 0x22 :: rest).length + 1)
        (escapeLoop v.length v ++ 0x22 :: rest)
      = some (coerceUTF8 v, rest) := by
  apply parseString_escapeLoop v.length v (le_refl _)
  simp only [List.length_append, List.length_cons]
  omega

theorem read_string_member (F d : Nat) (k v T : Bytes)
    (hk : ∀ sv : Bytes,
      parseString ((k ++ 0x22 :: 0x3A :: 0x22 :: sv).length + 1) (k ++ 0x22 :: 0x3A :: 0x22 :: sv)
        = some (k, 0x3A :: 0x22 :: sv)) :
    read (F + 2) Reader.members d
        (0x22 :: (k ++ 0x22 :: 0x3A :: 0x22 :: (escapeLoop v.length v ++ 0x22 :: 0x2C :: 0x22 :: T)))
      = (read (F + 1) Reader.members d (0x22 :: T)).map
          (fun r => ⟨(k, Item.string (coerceUTF8 v)) :: r.members, Item.object, r.rest⟩) :=
  read_member_string F d _ k _ (coerceUTF8 v) T (hk _) (parseString_encoded v _)

theorem read_string_member_last (F d : Nat) (k v T : Bytes)
    (hk : ∀ sv : Bytes,
      parseString ((k ++ 0x22 :: 0x3A :: 0x22 :: sv).length + 1) (k ++ 0x22 :: 0x3A :: 0x22 :: sv)
        = some (k, 0x3A :: 0x22 :: sv)) :
    read (F + 2) Reader.members d
        (0x22 :: (k ++ 0x22 :: 0x3A :: 0x22 :: (escapeLoop v.length v ++ 0x22 :: 0x7D :: T)))
      = some ⟨[(k, Item.string (coerceUTF8 v))], Item.object, T⟩ :=
  read_member_string_last F d _ k _ (coerceUTF8 v) T (hk _) (parseString_encoded v _)

theorem read_content_object (F : Nat) (D T : Bytes) :
    read (F + 2) Reader.members 2
        (0x22 :: (lit "content" ++ 0x22 :: 0x3A :: 0x22 ::
          (escapeLoop D.length D ++ 0x22 :: 0x7D :: T)))
      = some ⟨[(lit "content", Item.string (coerceUTF8 D))], Item.object, T⟩ :=
  read_string_member_last F 2 (lit "content") D T (fun _ => rfl)

theorem read_text_member (F : Nat) (D T : Bytes) :
    read (F + 5) Reader.members 1
        (0x22 :: (lit "text" ++ 0x22 :: 0x3A :: 0x7B :: 0x22 ::
          (lit "content" ++ 0x22 :: 0x3A :: 0x22 :: (escapeLoop D.length D
            ++ 0x22 :: 0x7D :: 0x2C :: 0x22 :: T))))
      = (read (F + 4) Reader.members 1 (0x22 :: T)).map
          (fun r => ⟨(lit "text", Item.object) :: r.members, Item.object, r.rest⟩) :=
  read_member_object (F + 2) 1 (by decide) _ (lit "text") _ T _ rfl
    (read_content_object F D _)

theorem read_text_body (F : Nat) (U A D : Bytes) :
    read (F + 10) Reader.value 0
        (0x7B :: 0x22 :: (lit "touser" ++ 0x22 :: 0x3A :: 0x22 :: (escapeLoop U.length U
          ++ 0x22 :: 0x2C :: 0x22 :: (lit "msgtype" ++ 0x22 :: 0x3A :: 0x22 ::
            (escapeLoop (lit "text").length (lit "text")
          ++ 0x22 :: 0x2C :: 0x22 :: (lit "agentid" ++ 0x22 :: 0x3A :: 0x22 :: (escapeLoop A.length A
          ++ 0x22 :: 0x2C :: 0x22 :: (lit "text" ++ 0x22 :: 0x3A :: 0x7B :: 0x22 ::
            (lit "content" ++ 0x22 :: 0x3A :: 0x22 :: (escapeLoop D.length D
          ++ 0x22 :: 0x7D :: 0x2C :: 0x22 ::
            lit "enable_duplicate_check\":0,\"duplicate_check_interval\":1800\x7d"))))))))))
      = some ⟨[(lit "touser", Item.string (coerceUTF8 U)),
          (lit "msgtype", Item.string (lit "text")),
          (lit "agentid", Item.string (coerceUTF8 A)),
          (lit "text", Item.object),
          (lit "enable_duplicate_check", Item.number (lit "0")),
          (lit "duplicate_check_interval", Item.number (lit "1800"))], Item.object, []⟩ := by
  rw [read_object_open (F + 8) 0 (by decide)]
  rw [read_string_member (F + 6) 1 (lit "touser") U _ (fun _ => rfl)]
  rw [read_string_member (F + 5) 1 (lit "msgtype") (lit "text") _ (fun _ => rfl)]
  rw [read_string_member (F + 4) 1 (lit "agentid") A _ (fun _ => rfl)]
  rw [read_text_member F D]
  have e5 : (0x22 :: lit "enable_duplicate_check\":0,\"duplicate_check_interval\":1800\x7d" : Bytes)
      = lit "\"enable_duplicate_check\":0,\"duplicate_check_interval\":1800\x7d" := rfl
  rw [e5, read_duplicate_check_tail (F + 1) 1]
  rfl

theorem parseTop_text_body (U A D : Bytes) :
    parseTop (lit "\x7b\"touser\":" ++ encodeString U
          ++ lit ",\"msgtype\":\"text\",\"agentid\":" ++ encodeString A
          ++ lit ",\"text\":\x7b\"content\":" ++ encodeString D
          ++ lit "\x7d,\"enable_duplicate_check\":0,\"duplicate_check_interval\":1800\x7d")
      = some (Top.object
          [(lit "touser", Item.string (coerceUTF8 U)),
           (lit "msgtype", Item.string (lit "text")),
           (lit "agentid", Item.string (coerceUTF8 A)),
           (lit "text", Item.object),
           (lit "enable_duplicate_check", Item.number (lit "0")),
           (lit "duplicate_check_interval", Item.number (lit "1800"))]) := by
  have hN : lit "\x7b\"touser\":" ++ encodeString U
          ++ lit ",\"msgtype\":\"text\",\"agentid\":" ++ encodeString A
          ++ lit ",\"text\":\x7b\"content\":" ++ encodeString D
          ++ lit "\x7d,\"enable_duplicate_check\":0,\"duplicate_check_interval\":1800\x7d"
      = (0x7B :: 0x22 :: (lit "touser" ++ 0x22 :: 0x3A :: 0x22 :: (escapeLoop U.length U
          ++ 0x22 :: 0x2C :: 0x22 :: (lit "msgtype" ++ 0x22 :: 0x3A :: 0x22 ::
            (escapeLoop (lit "text").length (lit "text")
          ++ 0x22 :: 0x2C :: 0x22 :: (lit "agentid" ++ 0x22 :: 0x3A :: 0x22 :: (escapeLoop A.length A
          ++ 0x22 :: 0x2C :: 0x22 :: (lit "text" ++ 0x22 :: 0x3A :: 0x7B :: 0x22 ::
            (lit "content" ++ 0x22 :: 0x3A :: 0x22 :: (escapeLoop D.length D
          ++ 0x22 :: 0x7D :: 0x2C :: 0x22 ::
            lit "enable_duplicate_check\":0,\"duplicate_check_interval\":1800\x7d"))))))))) : Bytes) := by
    simp only [encodeString, List.append_assoc]
    rfl
  rw [hN]
  generalize hB : (0x7B :: 0x22 :: (lit "touser" ++ 0x22 :: 0x3A :: 0x22 :: (escapeLoop U.length U
          ++ 0x22 :: 0x2C :: 0x22 :: (lit "msgtype" ++ 0x22 :: 0x3A :: 0x22 ::
            (escapeLoop (lit "text").length (lit "text")
          ++ 0x22 :: 0x2C :: 0x22 :: (lit "agentid" ++ 0x22 :: 0x3A :: 0x22 :: (escapeLoop A.length A
          ++ 0x22 :: 0x2C :: 0x22 :: (lit "text" ++ 0x22 :: 0x3A :: 0x7B :: 0x22 ::
            (lit "content" ++ 0x22 :: 0x3A :: 0x22 :: (escapeLoop D.length D
          ++ 0x22 :: 0x7D :: 0x2C :: 0x22 ::
            lit "enable_duplicate_check\":0,\"duplicate_check_interval\":1800\x7d"))))))))) : Bytes)
      = B
  have hsk : skipSpace B = B := by rw [← hB]; rfl
  have hlen : 4 ≤ B.length := by
    rw [← hB]
    simp only [List.length_cons, List.length_append]
    omega
  obtain ⟨F, hF⟩ : ∃ F, 2 * B.length + 2 = F + 10 := ⟨2 * B.length - 8, by omega⟩
  have hr := read_text_body F U A D
  rw [hB] at hr
  simp only [parseTop, hsk, hF, hr]
  rfl

theorem parseTop_content_object (D : Bytes) :
    parseTop (lit "\x7b\"content\":" ++ encodeString D ++ lit "\x7d")
      = some (Top.object [(lit "content", Item.string (coerceUTF8 D))]) := by
  have hN : lit "\x7b\"content\":" ++ encodeString D ++ lit "\x7d"
      = (0x7B :: 0x22 :: (lit "content" ++ 0x22 :: 0x3A :: 0x22 :: (escapeLoop D.length D
          ++ 0x22 :: 0x7D :: [])) : Bytes) := by
    simp only [encodeString, List.append_assoc]
    rfl
  rw [hN]
  generalize hB : (0x7B :: 0x22 :: (lit "content" ++ 0x22 :: 0x3A :: 0x22 ::
      (escapeLoop D.length D ++ 0x22 :: 0x7D :: [])) : Bytes) = B
  have hsk : skipSpace B = B := by rw [← hB]; rfl
  have hlen : 2 ≤ B.length := by
    rw [← hB]
    simp only [List.length_cons, List.length_append]
    omega
  obtain ⟨F, hF⟩ : ∃ F, 2 * B.length + 2 = F + 4 := ⟨2 * B.length - 2, by omega⟩
  have hr : read (F + 4) Reader.value 0 B
      = some ⟨[(lit "content", Item.string (coerceUTF8 D))], Item.object, []⟩ := by
    rw [← hB, read_object_open (F + 2) 0 (by decide),
      read_string_member_last F 1 (lit "content") D [] (fun _ => rfl)]
    rfl
  simp only [parseTop, hsk, hF, hr]
  rfl

theorem encodeRune_two (p0 b1 : UInt8) (h0 : 0xC2 ≤ p0.toNat ∧ p0.toNat ≤ 0xDF)
    (h1 : 0x80 ≤ b1.toNat ∧ b1.toNat ≤ 0xBF) :
    encodeRune ((p0.toNat % 32) * 64 + b1.toNat % 64) = [p0, b1] := by
  have e0 : 0xC0 + ((p0.toNat % 32) * 64 + b1.toNat % 64) / 64 = p0.toNat := by omega
  have e1 : 0x80 + ((p0.toNat % 32) * 64 + b1.toNat % 64) % 64 = b1.toNat := by omega
  have c1 : ¬ (p0.toNat % 32) * 64 + b1.toNat % 64 ≤ 0x7F := by omega
  have c2 : (p0.toNat % 32) * 64 + b1.toNat % 64 ≤ 0x7FF := by omega
  simp only [encodeRune, c1, c2, if_false, if_true, e0, e1, ofNat_toNat_byte]

theorem encodeRune_three (p0 b1 b2 : UInt8) (h0 : 0xE0 ≤ p0.toNat ∧ p0.toNat ≤ 0xEF)
    (h1 : 0x80 ≤ b1.toNat ∧ b1.toNat ≤ 0xBF) (h2 : 0x80 ≤ b2.toNat ∧ b2.toNat ≤ 0xBF)
    (hE0 : p0.toNat = 0xE0 → 0xA0 ≤ b1.toNat) (hED : p0.toNat = 0xED → b1.toNat ≤ 0x9F) :
    encodeRune ((p0.toNat % 16) * 4096 + (b1.toNat % 64) * 64 + b2.toNat % 64) = [p0, b1, b2] := by
  have e0 : 0xE0 + ((p0.toNat % 16) * 4096 + (b1.toNat % 64) * 64 + b2.toNat % 64) / 4096
      = p0.toNat := by omega
  have e1 : 0x80 + ((p0.toNat % 16) * 4096 + (b1.toNat % 64) * 64 + b2.toNat % 64) / 64 % 64
      = b1.toNat := by omega
  have e2 : 0x80 + ((p0.toNat % 16) * 4096 + (b1.toNat % 64) * 64 + b2.toNat % 64) % 64
      = b2.toNat := by omega
  have c1 : ¬ (p0.toNat % 16) * 4096 + (b1.toNat % 64) * 64 + b2.toNat % 64 ≤ 0x7F := by omega
  have c2 : ¬ (p0.toNat % 16) * 4096 + (b1.toNat % 64) * 64 + b2.toNat % 64 ≤ 0x7FF := by omega
  have c3 : ¬ (0x10FFFF < (p0.toNat % 16) * 4096 + (b1.toNat % 64) * 64 + b2.toNat % 64 ∨
      (0xD800 ≤ (p0.toNat % 16) * 4096 + (b1.toNat % 64) * 64 + b2.toNat % 64 ∧
        (p0.toNat % 16) * 4096 + (b1.toNat % 64) * 64 + b2.toNat % 64 ≤ 0xDFFF)) := by omega
  have c4 : (p0.toNat % 16) * 4096 + (b1.toNat % 64) * 64 + b2.toNat % 64 ≤ 0xFFFF := by omega
  simp only [encodeRune, c1, c2, c3, c4, if_false, if_true, e0, e1, e2, ofNat_toNat_byte]

theorem encodeRune_four (p0 b1 b2 b3 : UInt8) (h0 : 0xF0 ≤ p0.toNat ∧ p0.toNat ≤ 0xF4)
    (h1 : 0x80 ≤ b1.toNat ∧ b1.toNat ≤ 0xBF) (h2 : 0x80 ≤ b2.toNat ∧ b2.toNat ≤ 0xBF)
    (h3 : 0x80 ≤ b3.toNat ∧ b3.toNat ≤ 0xBF)
    (hF0 : p0.toNat = 0xF0 → 0x90 ≤ b1.toNat) (hF4 : p0.toNat = 0xF4 → b1.toNat ≤ 0x8F) :
    encodeRune ((p0.toNat % 8) * 262144 + (b1.toNat % 64) * 4096 + (b2.toNat % 64) * 64
        + b3.toNat % 64) = [p0, b1, b2, b3] := by
  have e0 : 0xF0 + ((p0.toNat % 8) * 262144 + (b1.toNat % 64) * 4096 + (b2.toNat % 64) * 64
      + b3.toNat % 64) / 262144 = p0.toNat := by omega
  have e1 : 0x80 + ((p0.toNat % 8) * 262144 + (b1.toNat % 64) * 4096 + (b2.toNat % 64) * 64
      + b3.toNat % 64) / 4096 % 64 = b1.toNat := by omega
  have e2 : 0x80 + ((p0.toNat % 8) * 262144 + (b1.toNat % 64) * 4096 + (b2.toNat % 64) * 64
      + b3.toNat % 64) / 64 % 64 = b2.toNat := by omega
  have e3 : 0x80 + ((p0.toNat % 8) * 262144 + (b1.toNat % 64) * 4096 + (b2.toNat % 64) * 64
      + b3.toNat % 64) % 64 = b3.toNat := by omega
  have c1 : ¬ (p0.toNat % 8) * 262144 + (b1.toNat % 64) * 4096 + (b2.toNat % 64) * 64
      + b3.toNat % 64 ≤ 0x7F := by omega
  have c2 : ¬ (p0.toNat % 8) * 262144 + (b1.toNat % 64) * 4096 + (b2.toNat % 64) * 64
      + b3.toNat % 64 ≤ 0x7FF := by omega
  have c3 : ¬ (0x10FFFF < (p0.toNat % 8) * 262144 + (b1.toNat % 64) * 4096
        + (b2.toNat % 64) * 64 + b3.toNat % 64 ∨
      (0xD800 ≤ (p0.toNat % 8) * 262144 + (b1.toNat % 64) * 4096 + (b2.toNat % 64) * 64
          + b3.toNat % 64 ∧
        (p0.toNat % 8) * 262144 + (b1.toNat % 64) * 4096 + (b2.toNat % 64) * 64
          + b3.toNat % 64 ≤ 0xDFFF)) := by omega
  have c4 : ¬ (p0.toNat % 8) * 262144 + (b1.toNat % 64) * 4096 + (b2.toNat % 64) * 64
      + b3.toNat % 64 ≤ 0xFFFF := by omega
  simp only [encodeRune, c1, c2, c3, c4, if_false, if_true, e0, e1, e2, e3, ofNat_toNat_byte]

theorem firstInfo_some (p0 sz lo hi : Nat) (h : firstInfo p0 = some (sz, lo, hi)) :
    (sz = 2 ∧ lo = 0x80 ∧ hi = 0xBF ∧ 0xC2 ≤ p0 ∧ p0 ≤ 0xDF) ∨
    (sz = 3 ∧ 0x80 ≤ lo ∧ hi ≤ 0xBF ∧ 0xE0 ≤ p0 ∧ p0 ≤ 0xEF ∧
      (p0 = 0xE0 → 0xA0 ≤ lo) ∧ (p0 = 0xED → hi ≤ 0x9F)) ∨
    (sz = 4 ∧ 0x80 ≤ lo ∧ hi ≤ 0xBF ∧ 0xF0 ≤ p0 ∧ p0 ≤ 0xF4 ∧
      (p0 = 0xF0 → 0x90 ≤ lo) ∧ (p0 = 0xF4 → hi ≤ 0x8F)) := by
  unfold firstInfo at h
  repeat' split at h
  all_goals simp only [Option.some.injEq, Prod.mk.injEq, reduceCtorEq] at h
  all_goals omega

theorem encode_decodeRune (b : UInt8) (s : Bytes) (hb : ¬ b.toNat < 0x80)
    (hk : (decodeRune (b :: s)).2 ≠ 1) :
    encodeRune (decodeRune (b :: s)).1 = (b :: s).take (decodeRune (b :: s)).2 := by
  simp only [decodeRune, hb, if_false] at hk ⊢
  cases hf : firstInfo b.toNat with
  | none => simp [hf] at hk
  | some info =>
    obtain ⟨sz, lo, hi⟩ := info
    have hfi := firstInfo_some _ _ _ _ hf
    simp only [hf] at hk ⊢
    cases s with
    | nil => simp at hk
    | cons b1 r1 =>
      simp only at hk ⊢
      by_cases h1 : (b1.toNat < lo || hi < b1.toNat) = true
      · simp [h1] at hk
      · have h1' : lo ≤ b1.toNat ∧ b1.toNat ≤ hi := by
          simp only [Bool.or_eq_true, decide_eq_true_eq, not_or, not_lt] at h1
          exact h1
        by_cases h2 : sz ≤ 2
        · simp only [h1, h2, if_true, Bool.false_eq_true, if_false, List.take_succ_cons,
            List.take_zero]
          apply encodeRune_two <;> omega
        · cases r1 with
          | nil => simp [h1, h2] at hk
          | cons b2 r2 =>
            by_cases h3 : notCont b2.toNat = true
            · simp [h1, h2, h3] at hk
            · have h3' : 0x80 ≤ b2.toNat ∧ b2.toNat ≤ 0xBF := by
                simp only [notCont, Bool.or_eq_true, decide_eq_true_eq, not_or, not_lt] at h3
                exact h3
              by_cases h4 : sz ≤ 3
              · simp only [h1, h2, h3, h4, if_true, Bool.false_eq_true, if_false,
                  List.take_succ_cons, List.take_zero]
                apply encodeRune_three <;> omega
              · cases r2 with
                | nil => simp [h1, h2, h3, h4] at hk
                | cons b3 r3 =>
                  by_cases h5 : notCont b3.toNat = true
                  · simp [h1, h2, h3, h4, h5] at hk
                  · have h5' : 0x80 ≤ b3.toNat ∧ b3.toNat ≤ 0xBF := by
                      simp only [notCont, Bool.or_eq_true, decide_eq_true_eq, not_or,
                        not_lt] at h5
                      exact h5
                    simp only [h1, h2, h3, h4, h5, if_true, Bool.false_eq_true, if_false,
                      List.take_succ_cons, List.take_zero]
                    apply encodeRune_four <;> omega

theorem coerceLoop_of_valid (n : Nat) :
    ∀ s : Bytes, s.length ≤ n → validLoop n s = true → coerceLoop n s = s := by
  induction n with
  | zero =>
    intro s hs _
    have : s = [] := List.length_eq_zero.mp (Nat.le_zero.mp hs)
    subst this
    rfl
  | succ n ih =>
    intro s hs hv
    cases s with
    | nil => rfl
    | cons b s =>
      have hs2 : s.length ≤ n := by simpa using hs
      by_cases hb : b.toNat < 0x80
      · simp only [validLoop, hb, if_true] at hv
        simp only [coerceLoop, hb, if_true, ih s hs2 hv]
      · by_cases hk : (decodeRune (b :: s)).2 = 1
        · simp [validLoop, hb, hk] at hv
        · simp only [validLoop, hb, hk, if_false] at hv
          have hpos := decodeRune_size_pos b s
          have hdrop : ((b :: s).drop (decodeRune (b :: s)).2).length ≤ n := by
            simp only [List.length_drop, List.length_cons]
            omega
          simp only [coerceLoop, hb, if_false, ih _ hdrop hv, encode_decodeRune b s hb hk]
          exact List.take_append_drop _ _

theorem coerceUTF8_of_valid (s : Bytes) (h : utf8Valid s = true) : coerceUTF8 s = s :=
  coerceLoop_of_valid s.length s (le_refl _) h

/-! ## C1: a non-zero `errcode` is returned as the error, message verbatim -/

/-- C1. Let `resp` be the answer of `Client.Do` to the request `req` of a run,
with status 200 and a body that is read without error. For each of `GetToken`,
`SendText`, `SendFile` and `UploadFileFromStream`: when the body decodes to the
operation's response struct `r` with `r.ErrCode ≠ 0`, the operation returns a
non-nil error whose message is exactly `r.ErrMsg`, and the other results are the
zero values (the empty string and 0). -/
theorem remote_error_message_verbatim (env : Env) (req : Request) (resp : Response)
    (hdo : env.Do req = .ok resp) (hs : resp.StatusCode = 200) (hb : resp.Body.err = none) :
    (∀ (CorpID CorpSecret : Bytes) (r : GetToken.ResponseBodyStruct),
      req ∈ (GetToken env CorpID CorpSecret).sent →
      GetToken.unmarshal resp.Body.data = some r → r.ErrCode ≠ 0 →
      (GetToken env CorpID CorpSecret).ret = ([], 0, some ⟨Stage.remoteAPI, r.ErrMsg⟩)) ∧
    (∀ (AccessToken AppID Username Data : Bytes) (r : SendText.ResponseBodyStruct),
      req ∈ (SendText env AccessToken AppID Username Data).sent →
      SendText.unmarshal resp.Body.data = some r → r.ErrCode ≠ 0 →
      (SendText env AccessToken AppID Username Data).ret = some ⟨Stage.remoteAPI, r.ErrMsg⟩) ∧
    (∀ (AccessToken AppID Username : Bytes) (ts : TypeStruct) (r : SendFile.ResponseBodyStruct),
      req ∈ (SendFile env AccessToken AppID Username ts).sent →
      SendFile.unmarshal resp.Body.data = some r → r.ErrCode ≠ 0 →
      (SendFile env AccessToken AppID Username ts).ret = some ⟨Stage.remoteAPI, r.ErrMsg⟩) ∧
    (∀ (AccessToken : Bytes) (Stream : Stream) (Filename : Bytes) (Type_ : FileType)
      (r : UploadFileFromStream.ResponseBodyStruct),
      req ∈ (UploadFileFromStream env AccessToken Stream Filename Type_).sent →
      UploadFileFromStream.unmarshal resp.Body.data = some r → r.ErrCode ≠ 0 →
      (UploadFileFromStream env AccessToken Stream Filename Type_).ret
        = ([], some ⟨Stage.remoteAPI, r.ErrMsg⟩)) := by
  refine ⟨?_, ?_, ?_, ?_⟩
  · intro CorpID CorpSecret r hmem hu hne
    obtain ⟨hn, rfl⟩ := GetToken_sent_mem hmem
    simp only [GetToken, hn, hdo]
    simp [hs, hb, hu, hne, errorsNew]
  · intro AccessToken AppID Username Data r hmem hu hne
    obtain ⟨body, hbody, hn, rfl⟩ := SendText_sent_mem hmem
    simp only [SendText, hbody, hn, hdo]
    simp [hs, hb, hu, hne, errorsNew]
  · intro AccessToken AppID Username ts r hmem hu hne
    obtain ⟨m, body, hm, hbody, hn, rfl⟩ := SendFile_sent_mem hmem
    simp only [SendFile, hm, hbody, hn, hdo]
    simp [hs, hb, hu, hne, errorsNew]
  · intro AccessToken Stream Filename Type_ r hmem hu hne
    obtain ⟨partHead, hp, hse, hn, rfl⟩ := UploadFileFromStream_sent_mem hmem
    simp only [UploadFileFromStream, hp, hse, hn, hdo]
    simp [hs, hb, hu, hne, errorsNew]

/-- Witness of C1: a stub server answering 200 with
`{"errcode":40014,"errmsg":"invalid access_token"}` makes each of the four
operations return the zero values and the error `invalid access_token`. -/
theorem remote_error_message_verbatim_witness :
    (GetToken (stubServer (ok200 (lit "\x7b\"errcode\":40014,\"errmsg\":\"invalid access_token\"\x7d")))
        (lit "corp1") (lit "secret1")).ret
      = ([], 0, some ⟨Stage.remoteAPI, lit "invalid access_token"⟩) ∧
    (SendText (stubServer (ok200 (lit "\x7b\"errcode\":40014,\"errmsg\":\"invalid access_token\"\x7d")))
        (lit "tok") (lit "1000002") (lit "alice") (lit "hello")).ret
      = some ⟨Stage.remoteAPI, lit "invalid access_token"⟩ ∧
    (SendFile (stubServer (ok200 (lit "\x7b\"errcode\":40014,\"errmsg\":\"invalid access_token\"\x7d")))
        (lit "tok") (lit "1000002") (lit "alice") ⟨File, lit "m1", ⟨[], []⟩⟩).ret
      = some ⟨Stage.remoteAPI, lit "invalid access_token"⟩ ∧
    (UploadFileFromStream
        (stubServer (ok200 (lit "\x7b\"errcode\":40014,\"errmsg\":\"invalid access_token\"\x7d")))
        (lit "tok") ⟨lit "0123456789", none⟩ (lit "/tmp/dir/photo.jpg") File).ret
      = ([], some ⟨Stage.remoteAPI, lit "invalid access_token"⟩) :=
  ⟨(remote_error_message_verbatim
      (stubServer (ok200 (lit "\x7b\"errcode\":40014,\"errmsg\":\"invalid access_token\"\x7d")))
      ⟨lit "GET",
        lit "https://qyapi.weixin.qq.com/cgi-bin/gettoken?corpid=corp1&corpsecret=secret1",
        none, []⟩
      (ok200 (lit "\x7b\"errcode\":40014,\"errmsg\":\"invalid access_token\"\x7d"))
      rfl rfl rfl).1 (lit "corp1") (lit "secret1")
      ⟨40014, lit "invalid access_token", [], 0⟩ (by decide) (by decide) (by decide),
   (remote_error_message_verbatim
      (stubServer (ok200 (lit "\x7b\"errcode\":40014,\"errmsg\":\"invalid access_token\"\x7d")))
      ((SendText
        (stubServer (ok200 (lit "\x7b\"errcode\":40014,\"errmsg\":\"invalid access_token\"\x7d")))
        (lit "tok") (lit "1000002") (lit "alice") (lit "hello")).sent.headD ⟨[], [], none, []⟩)
      (ok200 (lit "\x7b\"errcode\":40014,\"errmsg\":\"invalid access_token\"\x7d"))
      rfl rfl rfl).2.1 (lit "tok") (lit "1000002") (lit "alice") (lit "hello")
      ⟨40014, lit "invalid access_token", [], [], []⟩ (by decide) (by decide) (by decide),
   (remote_error_message_verbatim
      (stubServer (ok200 (lit "\x7b\"errcode\":40014,\"errmsg\":\"invalid access_token\"\x7d")))
      ((SendFile
        (stubServer (ok200 (lit "\x7b\"errcode\":40014,\"errmsg\":\"invalid access_token\"\x7d")))
        (lit "tok") (lit "1000002") (lit "alice") ⟨File, lit "m1", ⟨[], []⟩⟩).sent.headD
          ⟨[], [], none, []⟩)
      (ok200 (lit "\x7b\"errcode\":40014,\"errmsg\":\"invalid access_token\"\x7d"))
      rfl rfl rfl).2.2.1 (lit "tok") (lit "1000002") (lit "alice") ⟨File, lit "m1", ⟨[], []⟩⟩
      ⟨40014, lit "invalid access_token", [], [], []⟩ (by decide) (by decide) (by decide),
   (remote_error_message_verbatim
      (stubServer (ok200 (lit "\x7b\"errcode\":40014,\"errmsg\":\"invalid access_token\"\x7d")))
      ((UploadFileFromStream
        (stubServer (ok200 (lit "\x7b\"errcode\":40014,\"errmsg\":\"invalid access_token\"\x7d")))
        (lit "tok") ⟨lit "0123456789", none⟩ (lit "/tmp/dir/photo.jpg") File).sent.headD
          ⟨[], [], none, []⟩)
      (ok200 (lit "\x7b\"errcode\":40014,\"errmsg\":\"invalid access_token\"\x7d"))
      rfl rfl rfl).2.2.2 (lit "tok") ⟨lit "0123456789", none⟩ (lit "/tmp/dir/photo.jpg") File
      ⟨40014, lit "invalid access_token", [], [], []⟩ (by decide) (by decide) (by decide)⟩

/-! ## C2: `errcode` 0 gives success with the decoded fields -/

/-- C2, as stated, fails: the body
`{"errcode":0,"errmsg":"ok","access_token":"tok123","expires_in":"7200"}` is a
well-formed JSON object whose `errcode` is 0, the status is 200, and `GetToken`
returns the zero values and a decode error, because `expires_in` is a JSON
string while the field `ExpiredTime` is an `int64`. -/
theorem errcode_zero_object_may_fail :
    isObjectWithErrcodeZero
        (lit "\x7b\"errcode\":0,\"errmsg\":\"ok\",\"access_token\":\"tok123\",\"expires_in\":\"7200\"\x7d")
      = true ∧
    (GetToken
        (stubServerWith
          (ok200
            (lit "\x7b\"errcode\":0,\"errmsg\":\"ok\",\"access_token\":\"tok123\",\"expires_in\":\"7200\"\x7d"))
          (lit "json: cannot unmarshal string into Go struct field ResponseBodyStruct.expires_in of type int64"))
        (lit "corp1") (lit "secret1")).ret
      = ([], 0, some ⟨Stage.decode, lit
          "json parse fail: json: cannot unmarshal string into Go struct field ResponseBodyStruct.expires_in of type int64"⟩) := by
  decide

/-- C2, amended. Let `resp` be the answer of `Client.Do` to the request `req`
of a run, with status 200 and a body that is read without error. When the body
decodes to the operation's response struct `r` with `r.ErrCode = 0`, the
operation succeeds with the decoded fields: `GetToken` returns
`(r.AccessToken, r.ExpiredTime, nil)`, `UploadFileFromStream` returns
`(r.MediaID, nil)`, `SendText` and `SendFile` return `nil`. Against a stub
server, the body `{"errcode":0,"errmsg":"ok","access_token":"tok123","expires_in":7200}`
gives `("tok123", 7200, nil)` and the body `{"errcode":0,"media_id":"m1"}` gives
`("m1", nil)`. -/
theorem errcode_zero_success (env : Env) (req : Request) (resp : Response)
    (hdo : env.Do req = .ok resp) (hs : resp.StatusCode = 200) (hb : resp.Body.err = none) :
    (∀ (CorpID CorpSecret : Bytes) (r : GetToken.ResponseBodyStruct),
      req ∈ (GetToken env CorpID CorpSecret).sent →
      GetToken.unmarshal resp.Body.data = some r → r.ErrCode = 0 →
      (GetToken env CorpID CorpSecret).ret = (r.AccessToken, r.ExpiredTime, none)) ∧
    (∀ (AccessToken AppID Username Data : Bytes) (r : SendText.ResponseBodyStruct),
      req ∈ (SendText env AccessToken AppID Username Data).sent →
      SendText.unmarshal resp.Body.data = some r → r.ErrCode = 0 →
      (SendText env AccessToken AppID Username Data).ret = none) ∧
    (∀ (AccessToken AppID Username : Bytes) (ts : TypeStruct) (r : SendFile.ResponseBodyStruct),
      req ∈ (SendFile env AccessToken AppID Username ts).sent →
      SendFile.unmarshal resp.Body.data = some r → r.ErrCode = 0 →
      (SendFile env AccessToken AppID Username ts).ret = none) ∧
    (∀ (AccessToken : Bytes) (Stream : Stream) (Filename : Bytes) (Type_ : FileType)
      (r : UploadFileFromStream.ResponseBodyStruct),
      req ∈ (UploadFileFromStream env AccessToken Stream Filename Type_).sent →
      UploadFileFromStream.unmarshal resp.Body.data = some r → r.ErrCode = 0 →
      (UploadFileFromStream env AccessToken Stream Filename Type_).ret = (r.MediaID, none)) ∧
    (GetToken
        (stubServer (ok200
          (lit "\x7b\"errcode\":0,\"errmsg\":\"ok\",\"access_token\":\"tok123\",\"expires_in\":7200\x7d")))
        (lit "corp1") (lit "secret1")).ret = (lit "tok123", 7200, none) ∧
    (UploadFileFromStream (stubServer (ok200 (lit "\x7b\"errcode\":0,\"media_id\":\"m1\"\x7d")))
        (lit "tok") ⟨lit "0123456789", none⟩ (lit "photo.jpg") File).ret = (lit "m1", none) := by
  refine ⟨?_, ?_, ?_, ?_, by decide, by decide⟩
  · intro CorpID CorpSecret r hmem hu hz
    obtain ⟨hn, rfl⟩ := GetToken_sent_mem hmem
    simp only [GetToken, hn, hdo]
    simp [hs, hb, hu, hz]
  · intro AccessToken AppID Username Data r hmem hu hz
    obtain ⟨body, hbody, hn, rfl⟩ := SendText_sent_mem hmem
    simp only [SendText, hbody, hn, hdo]
    simp [hs, hb, hu, hz]
  · intro AccessToken AppID Username ts r hmem hu hz
    obtain ⟨m, body, hm, hbody, hn, rfl⟩ := SendFile_sent_mem hmem
    simp only [SendFile, hm, hbody, hn, hdo]
    simp [hs, hb, hu, hz]
  · intro AccessToken Stream Filename Type_ r hmem hu hz
    obtain ⟨partHead, hp, hse, hn, rfl⟩ := UploadFileFromStream_sent_mem hmem
    simp only [UploadFileFromStream, hp, hse, hn, hdo]
    simp [hs, hb, hu, hz]

/-- Witness of C2 (amended): against a stub server answering 200 with
`{"errcode":0,"errmsg":"ok"}`, `SendText` with recipient `alice` and message
`hello` returns `nil`, and so does `SendFile` with an image. -/
theorem errcode_zero_success_witness :
    (SendText (stubServer (ok200 (lit "\x7b\"errcode\":0,\"errmsg\":\"ok\"\x7d")))
        (lit "tok") (lit "1000002") (lit "alice") (lit "hello")).ret = none ∧
    (SendFile (stubServer (ok200 (lit "\x7b\"errcode\":0,\"errmsg\":\"ok\"\x7d")))
        (lit "tok") (lit "1000002") (lit "alice") ⟨Image, lit "m1", ⟨[], []⟩⟩).ret = none :=
  ⟨(errcode_zero_success (stubServer (ok200 (lit "\x7b\"errcode\":0,\"errmsg\":\"ok\"\x7d")))
      ((SendText (stubServer (ok200 (lit "\x7b\"errcode\":0,\"errmsg\":\"ok\"\x7d")))
        (lit "tok") (lit "1000002") (lit "alice") (lit "hello")).sent.headD ⟨[], [], none, []⟩)
      (ok200 (lit "\x7b\"errcode\":0,\"errmsg\":\"ok\"\x7d")) rfl rfl rfl).2.1
      (lit "tok") (lit "1000002") (lit "alice") (lit "hello")
      ⟨0, lit "ok", [], [], []⟩ (by decide) (by decide) rfl,
   (errcode_zero_success (stubServer (ok200 (lit "\x7b\"errcode\":0,\"errmsg\":\"ok\"\x7d")))
      ((SendFile (stubServer (ok200 (lit "\x7b\"errcode\":0,\"errmsg\":\"ok\"\x7d")))
        (lit "tok") (lit "1000002") (lit "alice") ⟨Image, lit "m1", ⟨[], []⟩⟩).sent.headD
          ⟨[], [], none, []⟩)
      (ok200 (lit "\x7b\"errcode\":0,\"errmsg\":\"ok\"\x7d")) rfl rfl rfl).2.2.1
      (lit "tok") (lit "1000002") (lit "alice") ⟨Image, lit "m1", ⟨[], []⟩⟩
      ⟨0, lit "ok", [], [], []⟩ (by decide) (by decide) rfl⟩

/-! ## C3: a status other than 200 is an error, whatever the body -/

/-- C3. Let `resp` be the answer of `Client.Do` to the request `req` of a run,
with a status code other than 200. Each of `GetToken`, `SendText`, `SendFile`
and `UploadFileFromStream` returns the zero values and the error whose message
is `fail to get body, status code: ` followed by `resp.Status`. The body of
`resp` is arbitrary and does not occur in the result: it is neither read nor
decoded. -/
theorem non_200_status_error (env : Env) (req : Request) (resp : Response)
    (hdo : env.Do req = .ok resp) (hs : resp.StatusCode ≠ 200) :
    (∀ (CorpID CorpSecret : Bytes), req ∈ (GetToken env CorpID CorpSecret).sent →
      (GetToken env CorpID CorpSecret).ret
        = ([], 0, some ⟨Stage.httpStatus, lit "fail to get body, status code: " ++ resp.Status⟩)) ∧
    (∀ (AccessToken AppID Username Data : Bytes),
      req ∈ (SendText env AccessToken AppID Username Data).sent →
      (SendText env AccessToken AppID Username Data).ret
        = some ⟨Stage.httpStatus, lit "fail to get body, status code: " ++ resp.Status⟩) ∧
    (∀ (AccessToken AppID Username : Bytes) (ts : TypeStruct),
      req ∈ (SendFile env AccessToken AppID Username ts).sent →
      (SendFile env AccessToken AppID Username ts).ret
        = some ⟨Stage.httpStatus, lit "fail to get body, status code: " ++ resp.Status⟩) ∧
    (∀ (AccessToken : Bytes) (Stream : Stream) (Filename : Bytes) (Type_ : FileType),
      req ∈ (UploadFileFromStream env AccessToken Stream Filename Type_).sent →
      (UploadFileFromStream env AccessToken Stream Filename Type_).ret
        = ([], some ⟨Stage.httpStatus, lit "fail to get body, status code: " ++ resp.Status⟩)) := by
  refine ⟨?_, ?_, ?_, ?_⟩
  · intro CorpID CorpSecret hmem
    obtain ⟨hn, rfl⟩ := GetToken_sent_mem hmem
    simp only [GetToken, hn, hdo]
    simp [hs, errorsNew]
  · intro AccessToken AppID Username Data hmem
    obtain ⟨body, hbody, hn, rfl⟩ := SendText_sent_mem hmem
    simp only [SendText, hbody, hn, hdo]
    simp [hs, errorsNew]
  · intro AccessToken AppID Username ts hmem
    obtain ⟨m, body, hm, hbody, hn, rfl⟩ := SendFile_sent_mem hmem
    simp only [SendFile, hm, hbody, hn, hdo]
    simp [hs, errorsNew]
  · intro AccessToken Stream Filename Type_ hmem
    obtain ⟨partHead, hp, hse, hn, rfl⟩ := UploadFileFromStream_sent_mem hmem
    simp only [UploadFileFromStream, hp, hse, hn, hdo]
    simp [hs, errorsNew]

/-- Witness of C3: a stub server answering `500 Internal Server Error` with the
body `{"errcode":0,"errmsg":"ok","access_token":"tok123","expires_in":7200}`
makes `GetToken` return the status error, and `SendText` likewise. -/
theorem non_200_status_error_witness :
    (GetToken
        (stubServer ⟨500, lit "500 Internal Server Error",
          ⟨lit "\x7b\"errcode\":0,\"errmsg\":\"ok\",\"access_token\":\"tok123\",\"expires_in\":7200\x7d",
            none⟩⟩)
        (lit "corp1") (lit "secret1")).ret
      = ([], 0, some ⟨Stage.httpStatus,
          lit "fail to get body, status code: 500 Internal Server Error"⟩) ∧
    (SendText
        (stubServer ⟨500, lit "500 Internal Server Error",
          ⟨lit "\x7b\"errcode\":0,\"errmsg\":\"ok\",\"access_token\":\"tok123\",\"expires_in\":7200\x7d",
            none⟩⟩)
        (lit "tok") (lit "1000002") (lit "alice") (lit "hello")).ret
      = some ⟨Stage.httpStatus, lit "fail to get body, status code: 500 Internal Server Error"⟩ :=
  ⟨(non_200_status_error
      (stubServer ⟨500, lit "500 Internal Server Error",
        ⟨lit "\x7b\"errcode\":0,\"errmsg\":\"ok\",\"access_token\":\"tok123\",\"expires_in\":7200\x7d",
          none⟩⟩)
      ⟨lit "GET",
        lit "https://qyapi.weixin.qq.com/cgi-bin/gettoken?corpid=corp1&corpsecret=secret1",
        none, []⟩
      ⟨500, lit "500 Internal Server Error",
        ⟨lit "\x7b\"errcode\":0,\"errmsg\":\"ok\",\"access_token\":\"tok123\",\"expires_in\":7200\x7d",
          none⟩⟩
      rfl (by decide)).1 (lit "corp1") (lit "secret1") (by decide),
   (non_200_status_error
      (stubServer ⟨500, lit "500 Internal Server Error",
        ⟨lit "\x7b\"errcode\":0,\"errmsg\":\"ok\",\"access_token\":\"tok123\",\"expires_in\":7200\x7d",
          none⟩⟩)
      ((SendText
        (stubServer ⟨500, lit "500 Internal Server Error",
          ⟨lit "\x7b\"errcode\":0,\"errmsg\":\"ok\",\"access_token\":\"tok123\",\"expires_in\":7200\x7d",
            none⟩⟩)
        (lit "tok") (lit "1000002") (lit "alice") (lit "hello")).sent.headD ⟨[], [], none, []⟩)
      ⟨500, lit "500 Internal Server Error",
        ⟨lit "\x7b\"errcode\":0,\"errmsg\":\"ok\",\"access_token\":\"tok123\",\"expires_in\":7200\x7d",
          none⟩⟩
      rfl (by decide)).2.1 (lit "tok") (lit "1000002") (lit "alice") (lit "hello") (by decide)⟩

/-! ## C4: an unsupported media type fails before any network call -/

/-- C4. For every `TypeSettings` whose `Type` is none of `image`, `voice`,
`video`, `file`, and for every environment, token, app id and recipient,
`SendFile` hands no request to `Client.Do` and returns the error
`invalid type`; the run is the same in every environment, so it does not depend
on the transport. -/
theorem SendFile_invalid_type (env : Env) (AccessToken AppID Username : Bytes)
    (ts : TypeStruct)
    (h : ts.Type_ ≠ Image ∧ ts.Type_ ≠ Voice ∧ ts.Type_ ≠ Video ∧ ts.Type_ ≠ File) :
    SendFile env AccessToken AppID Username ts
        = ⟨[], some ⟨Stage.invalidArgument, lit "invalid type"⟩⟩ ∧
    ∀ env2 : Env, SendFile env2 AccessToken AppID Username ts
        = SendFile env AccessToken AppID Username ts := by
  have key : ∀ e : Env, SendFile e AccessToken AppID Username ts
      = ⟨[], some ⟨Stage.invalidArgument, lit "invalid type"⟩⟩ := by
    intro e
    simp [SendFile, SendFile.RequestBodyMap, SendFile.switchType, h.1, h.2.1, h.2.2.1, h.2.2.2,
      errorsNew]
  exact ⟨key env, fun env2 => (key env2).trans (key env).symm⟩

/-- Witness of C4: the tag `Image` (capitalised) and the empty tag are rejected
without a request, even against a server that would answer 200 with errcode 0. -/
theorem SendFile_invalid_type_witness :
    SendFile (stubServer (ok200 (lit "\x7b\"errcode\":0,\"errmsg\":\"ok\"\x7d")))
        (lit "tok") (lit "1000002") (lit "alice") ⟨lit "Image", lit "m1", ⟨[], []⟩⟩
      = ⟨[], some ⟨Stage.invalidArgument, lit "invalid type"⟩⟩ ∧
    SendFile (stubServer (ok200 (lit "\x7b\"errcode\":0,\"errmsg\":\"ok\"\x7d")))
        (lit "tok") (lit "1000002") (lit "alice") ⟨[], lit "m1", ⟨[], []⟩⟩
      = ⟨[], some ⟨Stage.invalidArgument, lit "invalid type"⟩⟩ :=
  ⟨(SendFile_invalid_type (stubServer (ok200 (lit "\x7b\"errcode\":0,\"errmsg\":\"ok\"\x7d")))
      (lit "tok") (lit "1000002") (lit "alice") ⟨lit "Image", lit "m1", ⟨[], []⟩⟩
      (by decide)).1,
   (SendFile_invalid_type (stubServer (ok200 (lit "\x7b\"errcode\":0,\"errmsg\":\"ok\"\x7d")))
      (lit "tok") (lit "1000002") (lit "alice") ⟨[], lit "m1", ⟨[], []⟩⟩
      (by decide)).1⟩

/-! ## C6: the file name of the form part -/

/-- C6. For every `Filename`, the name `FileNameSmall` that
`UploadFileFromStream` writes into the form part is `Filename` with its
directory part removed: it has no slash, it is a suffix of `Filename`, what
precedes it in `Filename` is empty or ends with a slash, and for
`/tmp/dir/photo.jpg` it is `photo.jpg`. The header of the part has exactly the
entries `Content-Disposition: form-data; name="media"; filename="..."` with that
name and `Content-Type: application/octet-stream`, and every request the
operation sends has as body the single part with these header lines and the
bytes of the stream. -/
theorem upload_part_filename (env : Env) (AccessToken : Bytes) (Stream : Stream)
    (Filename : Bytes) (Type_ : FileType) :
    (0x2F : UInt8) ∉ UploadFileFromStream.FileNameSmall Filename ∧
    UploadFileFromStream.FileNameSmall Filename <:+ Filename ∧
    (filepathSplit Filename).1 ++ UploadFileFromStream.FileNameSmall Filename = Filename ∧
    ((filepathSplit Filename).1 = [] ∨ (filepathSplit Filename).1.getLast? = some 0x2F) ∧
    UploadFileFromStream.FileNameSmall (lit "/tmp/dir/photo.jpg") = lit "photo.jpg" ∧
    UploadFileFromStream.partHeader Filename
      = [(lit "Content-Disposition",
          lit "form-data; name=\"media\"; filename=\""
            ++ UploadFileFromStream.FileNameSmall Filename ++ lit "\""),
         (lit "Content-Type", lit "application/octet-stream")] ∧
    (∀ req ∈ (UploadFileFromStream env AccessToken Stream Filename Type_).sent,
      req.Body = some
        (lit "--" ++ env.boundary
          ++ lit "\r\nContent-Disposition: form-data; name=\"media\"; filename=\""
          ++ UploadFileFromStream.FileNameSmall Filename
          ++ lit "\"\r\nContent-Type: application/octet-stream\r\n\r\n"
          ++ Stream.data ++ lit "\r\n--" ++ env.boundary ++ lit "--\r\n")) := by
  have hh : UploadFileFromStream.partHeader Filename
      = [(lit "Content-Disposition",
          lit "form-data; name=\"media\"; filename=\""
            ++ UploadFileFromStream.FileNameSmall Filename ++ lit "\""),
         (lit "Content-Type", lit "application/octet-stream")] := by
    rfl
  refine ⟨filepathSplit_no_separator Filename, List.rtakeWhile_suffix _ _,
    filepathSplit_append Filename, filepathSplit_dir Filename, by decide, hh, ?_⟩
  intro req hmem
  obtain ⟨partHead, hp, -, -, rfl⟩ := UploadFileFromStream_sent_mem hmem
  rw [hh] at hp
  have hs : sortByKey [(lit "Content-Disposition",
        lit "form-data; name=\"media\"; filename=\""
          ++ UploadFileFromStream.FileNameSmall Filename ++ lit "\""),
       (lit "Content-Type", lit "application/octet-stream")]
      = [(lit "Content-Disposition",
        lit "form-data; name=\"media\"; filename=\""
          ++ UploadFileFromStream.FileNameSmall Filename ++ lit "\""),
       (lit "Content-Type", lit "application/octet-stream")] := by
    rfl
  simp only [createPart, hs, Except.ok.injEq] at hp
  subst hp
  simp only [closeWriter, List.map, List.flatten, List.append_assoc, List.append_nil,
    Option.some.injEq]
  rfl

/-- Witness of C6: a ten-byte stream uploaded as `/tmp/dir/photo.jpg` is sent in
a part whose file name is `photo.jpg`. -/
theorem upload_part_filename_witness :
    ((UploadFileFromStream (stubServer (ok200 (lit "\x7b\"errcode\":0,\"media_id\":\"m1\"\x7d")))
        (lit "tok") ⟨lit "0123456789", none⟩ (lit "/tmp/dir/photo.jpg") File).sent.headD
      ⟨[], [], none, []⟩).Body = some
        (lit "--b0\r\nContent-Disposition: form-data; name=\"media\"; filename=\"photo.jpg\"\r\nContent-Type: application/octet-stream\r\n\r\n0123456789\r\n--b0--\r\n") :=
  ((upload_part_filename (stubServer (ok200 (lit "\x7b\"errcode\":0,\"media_id\":\"m1\"\x7d")))
      (lit "tok") ⟨lit "0123456789", none⟩ (lit "/tmp/dir/photo.jpg") File).2.2.2.2.2.2
    _ (by decide)).trans (by decide)

/-! ## C10: the query parameters -/

/-- C10, as stated, fails: with `CorpID = "a&b=c"` and `CorpSecret = "s"` the
query `GetToken` builds is `corpid=a&b=c&corpsecret=s`; split on `&` and on the
first `=` it yields three parameters, `corpid = a`, `b = c`, `corpsecret = s`,
not the two parameters `corpid = a&b=c` and `corpsecret = s` in either order. -/
theorem query_split_counterexample :
    queryPairs (GetToken.URL (stubServer (ok200 [])) (lit "a&b=c") (lit "s")).RawQuery
      = [(lit "corpid", lit "a"), (lit "b", lit "c"), (lit "corpsecret", lit "s")] ∧
    ¬ (queryPairs (GetToken.URL (stubServer (ok200 [])) (lit "a&b=c") (lit "s")).RawQuery
        = [(lit "corpid", lit "a&b=c"), (lit "corpsecret", lit "s")] ∨
      queryPairs (GetToken.URL (stubServer (ok200 [])) (lit "a&b=c") (lit "s")).RawQuery
        = [(lit "corpsecret", lit "s"), (lit "corpid", lit "a&b=c")]) := by
  decide


/-- C10, amended. The values are written into the query as they are, without
escaping. For every `CorpID` and `CorpSecret` that contain no `&`, splitting
the query `GetToken` builds on `&` and each piece on its first `=` yields
exactly the two parameters `corpid = CorpID` and `corpsecret = CorpSecret`, in
either order. Likewise the query of `UploadFileFromStream` yields exactly
`access_token = AccessToken` and `type = Type` when neither contains `&`, and
the queries of `SendText` and `SendFile` yield exactly
`access_token = AccessToken` when `AccessToken` contains no `&`. -/
theorem query_parameters (env : Env) :
    (∀ CorpID CorpSecret : Bytes, (0x26 : UInt8) ∉ CorpID → (0x26 : UInt8) ∉ CorpSecret →
      (queryPairs (GetToken.URL env CorpID CorpSecret).RawQuery
          = [(lit "corpid", CorpID), (lit "corpsecret", CorpSecret)] ∨
        queryPairs (GetToken.URL env CorpID CorpSecret).RawQuery
          = [(lit "corpsecret", CorpSecret), (lit "corpid", CorpID)])) ∧
    (∀ (AccessToken : Bytes) (Type_ : FileType),
      (0x26 : UInt8) ∉ AccessToken → (0x26 : UInt8) ∉ Type_ →
      (queryPairs (UploadFileFromStream.URL env AccessToken Type_).RawQuery
          = [(lit "access_token", AccessToken), (lit "type", Type_)] ∨
        queryPairs (UploadFileFromStream.URL env AccessToken Type_).RawQuery
          = [(lit "type", Type_), (lit "access_token", AccessToken)])) ∧
    (∀ AccessToken : Bytes, (0x26 : UInt8) ∉ AccessToken →
      queryPairs (SendText.URL env AccessToken).RawQuery = [(lit "access_token", AccessToken)]) ∧
    (∀ AccessToken : Bytes, (0x26 : UInt8) ∉ AccessToken →
      queryPairs (SendFile.URL env AccessToken).RawQuery = [(lit "access_token", AccessToken)]) := by
  refine ⟨?_, ?_, ?_, ?_⟩
  · intro CorpID CorpSecret h1 h2
    rcases rawQuery_pair env.mapSeed (lit "corpid") CorpID (lit "corpsecret") CorpSecret
      (by decide) with h | h
    · left
      simp only [GetToken.URL, apiURL, h]
      exact queryPairs_two _ _ _ _ (by decide) (by decide) h1 (by decide) (by decide) h2
    · right
      simp only [GetToken.URL, apiURL, h]
      exact queryPairs_two _ _ _ _ (by decide) (by decide) h2 (by decide) (by decide) h1
  · intro AccessToken Type_ h1 h2
    rcases rawQuery_pair env.mapSeed (lit "access_token") AccessToken (lit "type") Type_
      (by decide) with h | h
    · left
      simp only [UploadFileFromStream.URL, apiURL, h]
      exact queryPairs_two _ _ _ _ (by decide) (by decide) h1 (by decide) (by decide) h2
    · right
      simp only [UploadFileFromStream.URL, apiURL, h]
      exact queryPairs_two _ _ _ _ (by decide) (by decide) h2 (by decide) (by decide) h1
  · intro AccessToken h
    simp only [SendText.URL, apiURL, rawQuery_single]
    exact queryPairs_one _ _ (by decide) (by decide) h
  · intro AccessToken h
    simp only [SendFile.URL, apiURL, rawQuery_single]
    exact queryPairs_one _ _ (by decide) (by decide) h


/-- Witness of C10 (amended): `corp1` and `secret1` give the two parameters. -/
theorem query_parameters_witness :
    queryPairs (GetToken.URL (stubServer (ok200 [])) (lit "corp1") (lit "secret1")).RawQuery
        = [(lit "corpid", lit "corp1"), (lit "corpsecret", lit "secret1")] ∨
    queryPairs (GetToken.URL (stubServer (ok200 [])) (lit "corp1") (lit "secret1")).RawQuery
        = [(lit "corpsecret", lit "secret1"), (lit "corpid", lit "corp1")] :=
  (query_parameters (stubServer (ok200 []))).1 (lit "corp1") (lit "secret1")
    (by decide) (by decide)

/-! ## C5: the title of a video message -/

/-- C5. For `SendFile` with `Type = video` at Unix time `env.now`: the map
passed to `json.Marshal` has `msgtype = "video"` and under `video` the object
with `media_id = MediaID`, `description = Description` and a `title` that is
`"Video_"` followed by the decimal rendering of `env.now` when the supplied
title is empty and the supplied title unchanged otherwise; every request the
operation sends has the JSON encoding of this map as its body. -/
theorem video_title (env : Env) (AccessToken AppID Username : Bytes) (ts : TypeStruct)
    (ht : ts.Type_ = Video) :
    SendFile.RequestBodyMap env AppID Username ts
      = some
        [(lit "touser", Value.str Username), (lit "agentid", Value.str AppID),
         (lit "msgtype", Value.str (lit "video")),
         (lit "video", Value.strMap
           [(lit "media_id", ts.MediaID),
            (lit "title",
              if ts.VideoSettings.Title = [] then lit "Video_" ++ FormatInt env.now
              else ts.VideoSettings.Title),
            (lit "description", ts.VideoSettings.Description)]),
         (lit "enable_duplicate_check", Value.int 0),
         (lit "duplicate_check_interval", Value.int 1800)] ∧
    (∀ req ∈ (SendFile env AccessToken AppID Username ts).sent,
      req.Body = some
        (lit "\x7b\"agentid\":" ++ encodeString AppID
          ++ lit ",\"duplicate_check_interval\":1800,\"enable_duplicate_check\":0"
          ++ lit ",\"msgtype\":\"video\",\"touser\":" ++ encodeString Username
          ++ lit ",\"video\":\x7b\"description\":" ++ encodeString ts.VideoSettings.Description
          ++ lit ",\"media_id\":" ++ encodeString ts.MediaID
          ++ lit ",\"title\":"
          ++ encodeString
              (if ts.VideoSettings.Title = [] then lit "Video_" ++ FormatInt env.now
               else ts.VideoSettings.Title)
          ++ lit "\x7d\x7d")) := by
  obtain ⟨ty, MediaID, Title, Description⟩ := ts
  simp only at ht
  subst ht
  refine ⟨RequestBodyMap_video env AppID Username MediaID Title Description, ?_⟩
  intro req hmem
  obtain ⟨m, body, hm, hbody, -, rfl⟩ := SendFile_sent_mem hmem
  rw [RequestBodyMap_video] at hm
  cases hm
  rw [MarshalMap_video] at hbody
  cases hbody
  rfl

/-- Witness of C5: at Unix time 1700000000 a video with an empty title is sent
with the title `Video_1700000000`, and a video titled `clip` with that title. -/
theorem video_title_witness :
    ((SendFile (stubServer (ok200 (lit "\x7b\"errcode\":0,\"errmsg\":\"ok\"\x7d")))
        (lit "tok") (lit "1000002") (lit "alice") ⟨Video, lit "m1", ⟨[], lit "d"⟩⟩).sent.headD
      ⟨[], [], none, []⟩).Body = some
        (lit "\x7b\"agentid\":\"1000002\",\"duplicate_check_interval\":1800,\"enable_duplicate_check\":0,\"msgtype\":\"video\",\"touser\":\"alice\",\"video\":\x7b\"description\":\"d\",\"media_id\":\"m1\",\"title\":\"Video_1700000000\"\x7d\x7d") ∧
    ((SendFile (stubServer (ok200 (lit "\x7b\"errcode\":0,\"errmsg\":\"ok\"\x7d")))
        (lit "tok") (lit "1000002") (lit "alice") ⟨Video, lit "m1", ⟨lit "clip", lit "d"⟩⟩).sent.headD
      ⟨[], [], none, []⟩).Body = some
        (lit "\x7b\"agentid\":\"1000002\",\"duplicate_check_interval\":1800,\"enable_duplicate_check\":0,\"msgtype\":\"video\",\"touser\":\"alice\",\"video\":\x7b\"description\":\"d\",\"media_id\":\"m1\",\"title\":\"clip\"\x7d\x7d") :=
  ⟨((video_title (stubServer (ok200 (lit "\x7b\"errcode\":0,\"errmsg\":\"ok\"\x7d")))
      (lit "tok") (lit "1000002") (lit "alice") ⟨Video, lit "m1", ⟨[], lit "d"⟩⟩ rfl).2
      _ (by decide)).trans (by decide),
   ((video_title (stubServer (ok200 (lit "\x7b\"errcode\":0,\"errmsg\":\"ok\"\x7d")))
      (lit "tok") (lit "1000002") (lit "alice") ⟨Video, lit "m1", ⟨lit "clip", lit "d"⟩⟩ rfl).2
      _ (by decide)).trans (by decide)⟩

/-! ## C7: the body of a text message -/

/-- C7, as stated, fails: for the recipient consisting of the single byte `FF`,
which is not valid UTF-8, the body `SendText` sends is the JSON object whose
member `touser` is U+FFFD (the bytes `EF BF BD`), not the recipient. -/
theorem text_body_recipient_replaced :
    (SendText (stubServer (ok200 (lit "\x7b\"errcode\":0,\"errmsg\":\"ok\"\x7d")))
        (lit "tok") (lit "1000002") [0xFF] (lit "hello")).sent.map Request.Body
      = [some (lit "\x7b\"touser\":\"\\ufffd\",\"msgtype\":\"text\",\"agentid\":\"1000002\",\"text\":\x7b\"content\":\"hello\"\x7d,\"enable_duplicate_check\":0,\"duplicate_check_interval\":1800\x7d")] ∧
    parseTop (lit "\x7b\"touser\":\"\\ufffd\",\"msgtype\":\"text\",\"agentid\":\"1000002\",\"text\":\x7b\"content\":\"hello\"\x7d,\"enable_duplicate_check\":0,\"duplicate_check_interval\":1800\x7d")
      = some (Top.object
          [(lit "touser", Item.string [0xEF, 0xBF, 0xBD]),
           (lit "msgtype", Item.string (lit "text")),
           (lit "agentid", Item.string (lit "1000002")),
           (lit "text", Item.object),
           (lit "enable_duplicate_check", Item.number (lit "0")),
           (lit "duplicate_check_interval", Item.number (lit "1800"))]) ∧
    ([0xEF, 0xBF, 0xBD] : Bytes) ≠ [0xFF] := by
  decide

/-- C7, amended. For every recipient, app id and message byte sequence, every
request `SendText` sends is a POST whose body, read as JSON, is an object with
exactly the members `touser`, `msgtype`, `agentid`, `text`,
`enable_duplicate_check`, `duplicate_check_interval`, in this order, where
`touser` is the string `coerceUTF8 recipient`, `msgtype` the string `text`,
`agentid` the string `coerceUTF8 appid`, `text` an object, and the last two the
numbers `0` and `1800`; the text written under `text` is the JSON object with
the single member `content`, the string `coerceUTF8 message`. `coerceUTF8`
replaces each byte outside a valid UTF-8 sequence by U+FFFD and leaves a valid
UTF-8 string as it is, so `touser` is the recipient, `agentid` the app id and
`content` the message whenever these are valid UTF-8. With recipient `alice`
and message `hello` the body contains `"content":"hello"` and
`"touser":"alice"`. -/
theorem text_body_object (env : Env) (AccessToken AppID Username Data : Bytes) :
    SendText.RequestBody AppID Username Data
      = ⟨Username, lit "text", AppID, ⟨Data⟩, 0, 1800⟩ ∧
    (∀ req ∈ (SendText env AccessToken AppID Username Data).sent,
      req.Method = lit "POST" ∧
      req.Body = some
        (lit "\x7b\"touser\":" ++ encodeString Username
          ++ lit ",\"msgtype\":\"text\",\"agentid\":" ++ encodeString AppID
          ++ lit ",\"text\":\x7b\"content\":" ++ encodeString Data
          ++ lit "\x7d,\"enable_duplicate_check\":0,\"duplicate_check_interval\":1800\x7d")) ∧
    parseTop
        (lit "\x7b\"touser\":" ++ encodeString Username
          ++ lit ",\"msgtype\":\"text\",\"agentid\":" ++ encodeString AppID
          ++ lit ",\"text\":\x7b\"content\":" ++ encodeString Data
          ++ lit "\x7d,\"enable_duplicate_check\":0,\"duplicate_check_interval\":1800\x7d")
      = some (Top.object
          [(lit "touser", Item.string (coerceUTF8 Username)),
           (lit "msgtype", Item.string (lit "text")),
           (lit "agentid", Item.string (coerceUTF8 AppID)),
           (lit "text", Item.object),
           (lit "enable_duplicate_check", Item.number (lit "0")),
           (lit "duplicate_check_interval", Item.number (lit "1800"))]) ∧
    parseTop (lit "\x7b\"content\":" ++ encodeString Data ++ lit "\x7d")
      = some (Top.object [(lit "content", Item.string (coerceUTF8 Data))]) ∧
    (∀ s : Bytes, utf8Valid s = true → coerceUTF8 s = s) ∧
    ((∀ b ∈ Data, htmlSafe b.toNat = true) → encodeString Data = lit "\"" ++ Data ++ lit "\"") ∧
    (SendText (stubServer (ok200 (lit "\x7b\"errcode\":0,\"errmsg\":\"ok\"\x7d")))
        (lit "tok") (lit "1000002") (lit "alice") (lit "hello")).sent.map Request.Body
      = [some (lit "\x7b\"touser\":\"alice\",\"msgtype\":\"text\",\"agentid\":\"1000002\",\"text\":\x7b\"content\":\"hello\"\x7d,\"enable_duplicate_check\":0,\"duplicate_check_interval\":1800\x7d")] ∧
    containsSub (lit "\"content\":\"hello\"")
      (lit "\x7b\"touser\":\"alice\",\"msgtype\":\"text\",\"agentid\":\"1000002\",\"text\":\x7b\"content\":\"hello\"\x7d,\"enable_duplicate_check\":0,\"duplicate_check_interval\":1800\x7d")
      = true ∧
    containsSub (lit "\"touser\":\"alice\"")
      (lit "\x7b\"touser\":\"alice\",\"msgtype\":\"text\",\"agentid\":\"1000002\",\"text\":\x7b\"content\":\"hello\"\x7d,\"enable_duplicate_check\":0,\"duplicate_check_interval\":1800\x7d")
      = true := by
  refine ⟨rfl, ?_, parseTop_text_body Username AppID Data, parseTop_content_object Data,
    coerceUTF8_of_valid, encodeString_plain Data, by decide, by decide, by decide⟩
  intro req hmem
  obtain ⟨body, hbody, -, rfl⟩ := SendText_sent_mem hmem
  rw [SendText_body] at hbody
  cases hbody
  exact ⟨rfl, rfl⟩

/-- Witness of C7 (amended): the request `SendText` sends for recipient `alice`
and message `hello` is a POST; `alice` and `hello` are valid UTF-8, so they are
the values of `touser` and `content`. -/
theorem text_body_object_witness :
    ((SendText (stubServer (ok200 (lit "\x7b\"errcode\":0,\"errmsg\":\"ok\"\x7d")))
        (lit "tok") (lit "1000002") (lit "alice") (lit "hello")).sent.headD
        ⟨[], [], none, []⟩).Method = lit "POST" ∧
    utf8Valid (lit "alice") = true ∧ coerceUTF8 (lit "alice") = lit "alice" ∧
    utf8Valid (lit "hello") = true ∧ coerceUTF8 (lit "hello") = lit "hello" ∧
    encodeString (lit "hello") = lit "\"hello\"" :=
  ⟨((text_body_object (stubServer (ok200 (lit "\x7b\"errcode\":0,\"errmsg\":\"ok\"\x7d")))
      (lit "tok") (lit "1000002") (lit "alice") (lit "hello")).2.1 _ (by decide)).1,
   by decide,
   (text_body_object (stubServer (ok200 (lit "\x7b\"errcode\":0,\"errmsg\":\"ok\"\x7d")))
      (lit "tok") (lit "1000002") (lit "alice") (lit "hello")).2.2.2.2.1 (lit "alice")
      (by decide),
   by decide,
   (text_body_object (stubServer (ok200 (lit "\x7b\"errcode\":0,\"errmsg\":\"ok\"\x7d")))
      (lit "tok") (lit "1000002") (lit "alice") (lit "hello")).2.2.2.2.1 (lit "hello")
      (by decide),
   ((text_body_object (stubServer (ok200 (lit "\x7b\"errcode\":0,\"errmsg\":\"ok\"\x7d")))
      (lit "tok") (lit "1000002") (lit "alice") (lit "hello")).2.2.2.2.2.1 (by decide)).trans
      (by decide)⟩

/-! ## C8: the body of an image, voice or file message -/

/-- C8. For every `TypeSettings` whose `Type` is `t` among `image`, `voice`,
`file`, and every recipient and app id: the map `SendFile` passes to
`json.Marshal` has exactly the keys `touser`, `agentid`, `msgtype`, `t`,
`enable_duplicate_check`, `duplicate_check_interval`, with `touser` = recipient,
`agentid` = app id, `msgtype` = `t`, under `t` the object with the single member
`media_id` = `MediaID` (no title, no description), `enable_duplicate_check` = 0
and `duplicate_check_interval` = 1800; every request the operation sends has
the JSON encoding of this map, keys in increasing order, as its body. -/
theorem media_body (env : Env) (AccessToken AppID Username : Bytes) (ts : TypeStruct)
    (ht : ts.Type_ = Image ∨ ts.Type_ = Voice ∨ ts.Type_ = File) :
    SendFile.RequestBodyMap env AppID Username ts
      = some
        [(lit "touser", Value.str Username), (lit "agentid", Value.str AppID),
         (lit "msgtype", Value.str ts.Type_),
         (ts.Type_, Value.strMap [(lit "media_id", ts.MediaID)]),
         (lit "enable_duplicate_check", Value.int 0),
         (lit "duplicate_check_interval", Value.int 1800)] ∧
    (ts.Type_ = Image → ∀ req ∈ (SendFile env AccessToken AppID Username ts).sent,
      req.Body = some
        (lit "\x7b\"agentid\":" ++ encodeString AppID
          ++ lit ",\"duplicate_check_interval\":1800,\"enable_duplicate_check\":0"
          ++ lit ",\"image\":\x7b\"media_id\":" ++ encodeString ts.MediaID
          ++ lit "\x7d,\"msgtype\":\"image\",\"touser\":" ++ encodeString Username
          ++ lit "\x7d")) ∧
    (ts.Type_ = Voice → ∀ req ∈ (SendFile env AccessToken AppID Username ts).sent,
      req.Body = some
        (lit "\x7b\"agentid\":" ++ encodeString AppID
          ++ lit ",\"duplicate_check_interval\":1800,\"enable_duplicate_check\":0"
          ++ lit ",\"msgtype\":\"voice\",\"touser\":" ++ encodeString Username
          ++ lit ",\"voice\":\x7b\"media_id\":" ++ encodeString ts.MediaID ++ lit "\x7d\x7d")) ∧
    (ts.Type_ = File → ∀ req ∈ (SendFile env AccessToken AppID Username ts).sent,
      req.Body = some
        (lit "\x7b\"agentid\":" ++ encodeString AppID
          ++ lit ",\"duplicate_check_interval\":1800,\"enable_duplicate_check\":0"
          ++ lit ",\"file\":\x7b\"media_id\":" ++ encodeString ts.MediaID
          ++ lit "\x7d,\"msgtype\":\"file\",\"touser\":" ++ encodeString Username
          ++ lit "\x7d")) := by
  have hmap := RequestBodyMap_media env AppID Username ts ht
  refine ⟨hmap, ?_, ?_, ?_⟩
  · intro h req hmem
    obtain ⟨m, body, hm, hbody, -, rfl⟩ := SendFile_sent_mem hmem
    rw [hmap] at hm
    cases hm
    rw [h, MarshalMap_image] at hbody
    cases hbody
    rfl
  · intro h req hmem
    obtain ⟨m, body, hm, hbody, -, rfl⟩ := SendFile_sent_mem hmem
    rw [hmap] at hm
    cases hm
    rw [h, MarshalMap_voice] at hbody
    cases hbody
    rfl
  · intro h req hmem
    obtain ⟨m, body, hm, hbody, -, rfl⟩ := SendFile_sent_mem hmem
    rw [hmap] at hm
    cases hm
    rw [h, MarshalMap_file] at hbody
    cases hbody
    rfl

/-- Witness of C8: an image with media id `m1` for recipient `alice`. -/
theorem media_body_witness :
    ((SendFile (stubServer (ok200 (lit "\x7b\"errcode\":0,\"errmsg\":\"ok\"\x7d")))
        (lit "tok") (lit "1000002") (lit "alice") ⟨Image, lit "m1", ⟨lit "t", lit "d"⟩⟩).sent.headD
      ⟨[], [], none, []⟩).Body = some
        (lit "\x7b\"agentid\":\"1000002\",\"duplicate_check_interval\":1800,\"enable_duplicate_check\":0,\"image\":\x7b\"media_id\":\"m1\"\x7d,\"msgtype\":\"image\",\"touser\":\"alice\"\x7d") :=
  ((media_body (stubServer (ok200 (lit "\x7b\"errcode\":0,\"errmsg\":\"ok\"\x7d")))
      (lit "tok") (lit "1000002") (lit "alice") ⟨Image, lit "m1", ⟨lit "t", lit "d"⟩⟩
      (Or.inl rfl)).2.1 rfl _ (by decide)).trans (by decide)

/-! ## C9: telling the kinds of failure apart -/

/-- C9, as stated, fails: two failing runs of `SendFile` at different stages
return the same error. With the unsupported tag `gif` the operation returns
`invalid type` before any request; with the tag `image` and a server answering
200 with `{"errcode":40008,"errmsg":"invalid type"}` it returns the remote
message, which is `invalid type` as well. -/
theorem failure_kinds_collide :
    (SendFile (stubServer (ok200 (lit "\x7b\"errcode\":40008,\"errmsg\":\"invalid type\"\x7d")))
        (lit "tok") (lit "1000002") (lit "alice") ⟨lit "gif", lit "m1", ⟨[], []⟩⟩).ret
      = some ⟨Stage.invalidArgument, lit "invalid type"⟩ ∧
    (SendFile (stubServer (ok200 (lit "\x7b\"errcode\":40008,\"errmsg\":\"invalid type\"\x7d")))
        (lit "tok") (lit "1000002") (lit "alice") ⟨Image, lit "m1", ⟨[], []⟩⟩).ret
      = some ⟨Stage.remoteAPI, lit "invalid type"⟩ := by
  decide

/-- C9, amended. The messages of the four locally made kinds of failure
(transport failure, non-200 status, undecodable body, unsupported media type)
have fixed forms, and a non-zero `errcode` returns the remote `errmsg` as it
is. For every pair of failing runs, of any of the four operations, that fail at
different stages, the two returned messages are different, provided the
`errmsg` of a remote failure among them does not itself have one of the local
forms (`classify` sends it to the remote kind); under this proviso the kind of
failure is the value of the function `classify` at the message. -/
theorem failure_kind_of_message (env1 env2 : Env) (c1 c2 : Call) (e1 e2 : GoError)
    (h1 : c1.failure env1 = some e1) (h2 : c2.failure env2 = some e2)
    (hne : e1.stage ≠ e2.stage)
    (hr1 : e1.stage = Stage.remoteAPI → classify e1.msg = Stage.remoteAPI)
    (hr2 : e2.stage = Stage.remoteAPI → classify e2.msg = Stage.remoteAPI) :
    e1.msg ≠ e2.msg ∧ classify e1.msg = e1.stage ∧ classify e2.msg = e2.stage := by
  have k1 : classify e1.msg = e1.stage := by
    rcases classify_of_failure env1 c1 e1 h1 with h | h
    · rw [h]; exact hr1 h
    · exact h
  have k2 : classify e2.msg = e2.stage := by
    rcases classify_of_failure env2 c2 e2 h2 with h | h
    · rw [h]; exact hr2 h
    · exact h
  refine ⟨?_, k1, k2⟩
  intro heq
  apply hne
  rw [← k1, ← k2, heq]

/-- Witness of C9 (amended): `GetToken` against a server answering
`500 Internal Server Error`, and `SendText` against a server answering 200 with
`{"errcode":40014,"errmsg":"invalid access_token"}`, return different
messages. -/
theorem failure_kind_of_message_witness :
    Call.failure (stubServer ⟨500, lit "500 Internal Server Error", ⟨[], none⟩⟩)
        (Call.getToken (lit "corp1") (lit "secret1"))
      = some ⟨Stage.httpStatus, lit "fail to get body, status code: 500 Internal Server Error"⟩ ∧
    Call.failure
        (stubServer (ok200 (lit "\x7b\"errcode\":40014,\"errmsg\":\"invalid access_token\"\x7d")))
        (Call.sendText (lit "tok") (lit "1000002") (lit "alice") (lit "hello"))
      = some ⟨Stage.remoteAPI, lit "invalid access_token"⟩ ∧
    (lit "fail to get body, status code: 500 Internal Server Error" : Bytes)
      ≠ lit "invalid access_token" :=
  ⟨by decide, by decide,
   (failure_kind_of_message
    (stubServer ⟨500, lit "500 Internal Server Error", ⟨[], none⟩⟩)
    (stubServer (ok200 (lit "\x7b\"errcode\":40014,\"errmsg\":\"invalid access_token\"\x7d")))
    (Call.getToken (lit "corp1") (lit "secret1"))
    (Call.sendText (lit "tok") (lit "1000002") (lit "alice") (lit "hello"))
    ⟨Stage.httpStatus, lit "fail to get body, status code: 500 Internal Server Error"⟩
    ⟨Stage.remoteAPI, lit "invalid access_token"⟩
    (by decide) (by decide) (by decide) (fun h => absurd h (by decide)) (fun _ => by decide)).1⟩

end WxSend
